import Mathlib

/-!
Verification of the proof-orchestration and sub-protocol layer of the
composable zero-knowledge proof framework.

The development shallowly embeds the two source modules that are present
(`proof_system/src/sub_protocols/schnorr.rs` and
`proof_system/src/sub_protocols.rs`), treating the external collaborator
crates (`schnorr_pok`, `bbs_plus`, `vb_accumulator`) as abstract bundles of
operations, exactly as the specification scopes them ("consumed only through
narrow interfaces").  Rust's `&mut self` methods become explicit state
passing: every method is a function `State → args → Result × State`; a
`&self` method returns its input state unchanged.  `Option`-slot "take"
semantics of the Rust source are modelled literally.

The proof orchestrator (`prove`/`verify`), the witness-equality machinery and
the bound-check strategy selection are code of this repository that is not
under the provided sources (only their tests call them); they are modelled
from the specification in the `SpecModel` section below.
-/

namespace CryptoVerif

/-! ## Embedding of `proof_system/src/sub_protocols/schnorr.rs` -/

/-- Error enumeration of the proof system as used by the Schnorr module
(`schnorr.rs` revision): `SubProtocolNotReadyToGenerateProof` carries the
statement id (`self.id`).  Collaborator (`schnorr_pok`) errors are wrapped by
the `fromCollab` arm, mirroring the `From` conversion applied by `?` and
`map_err(|e| e.into())`.  The `panicUnwrapNone` arm marks the one unguarded
`unwrap` in the module (`self.witnesses.as_ref().unwrap()`), which in Rust
would panic; no reachable state of the protocol hits it. -/
inductive SchnorrPSError (CErr : Type) where
  | subProtocolAlreadyInitialized (id : Nat)
  | subProtocolNotReadyToGenerateChallenge (id : Nat)
  | subProtocolNotReadyToGenerateProof (id : Nat)
  | proofIncompatibleWithSchnorrProtocol
  | fromCollab (e : CErr)
  | panicUnwrapNone
deriving DecidableEq

/-- The `PedersenCommitmentProof` struct: commitment to randomness `t` and the
collaborator's response object. -/
structure PedersenCommitmentProof (G Resp : Type) where
  t : G
  response : Resp
deriving DecidableEq

/-- Statement proof enumeration as seen from `schnorr.rs`: the
`PedersenCommitment` arm is matched explicitly, every other variant of the
enum falls to the wildcard arm and is represented by `otherVariant`. -/
inductive StatementProofS (G Resp Other : Type) where
  | pedersenCommitment (p : PedersenCommitmentProof G Resp)
  | otherVariant (o : Other)
deriving DecidableEq

/-- Operations the Schnorr module consumes from the `schnorr_pok` collaborator
crate: constructing a `SchnorrCommitment` from bases and blindings, reading
its `t` point, computing the response for a challenge, and checking a
response's validity. -/
structure SchnorrCollab (G Fr SC Resp CErr : Type) where
  scNew : List G → List Fr → SC
  scT : SC → G
  response : SC → List Fr → Fr → Except CErr Resp
  is_valid : Resp → List G → G → G → Fr → Except CErr Unit

/-- The `SchnorrProtocol` state: public data plus the two `Option` slots whose
occupancy drives the `Uninitialized → Committed → Consumed` state machine. -/
structure SchnorrProtocol (G Fr SC : Type) where
  id : Nat
  commitment_key : List G
  commitment : G
  commitment_to_randomness : Option SC
  witnesses : Option (List Fr)
deriving DecidableEq

/-- The `SchnorrProtocol::new` constructor: both slots empty. -/
def SchnorrProtocol.new {G Fr SC : Type} (id : Nat) (commitment_key : List G)
    (commitment : G) : SchnorrProtocol G Fr SC :=
  { id, commitment_key, commitment, commitment_to_randomness := none, witnesses := none }

/-- The `SchnorrProtocol::init` method.  Fails with `AlreadyInitialized` when
the commitment-to-randomness slot is occupied.  For each witness index the
caller-supplied blinding is used when present, otherwise fresh randomness is
drawn; the randomness source is embedded as an oracle `rng : Nat → Fr` giving
the value drawn for index `i`. -/
def SchnorrProtocol.init {G Fr SC CErr : Type} (cc : SchnorrCollab G Fr SC Resp CErr)
    (s : SchnorrProtocol G Fr SC) (rng : Nat → Fr) (blindings : Nat → Option Fr)
    (witnesses : List Fr) :
    Except (SchnorrPSError CErr) Unit × SchnorrProtocol G Fr SC :=
  if s.commitment_to_randomness.isSome then
    (.error (.subProtocolAlreadyInitialized s.id), s)
  else
    let bl := (List.range witnesses.length).map (fun i => (blindings i).getD (rng i))
    (.ok (),
      { s with
        commitment_to_randomness := some (cc.scNew s.commitment_key bl)
        witnesses := some witnesses })

/-- The `SchnorrProtocol::gen_proof_contribution_as_struct` method.  Errors when
the commitment slot is empty; otherwise `take`s the slot (emptying it) before
computing the response, so the consumed state persists even when the
collaborator's `response` call fails. -/
def SchnorrProtocol.gen_proof_contribution_as_struct {G Fr SC Resp CErr : Type}
    (cc : SchnorrCollab G Fr SC Resp CErr) (s : SchnorrProtocol G Fr SC)
    (challenge : Fr) :
    Except (SchnorrPSError CErr) (PedersenCommitmentProof G Resp) × SchnorrProtocol G Fr SC :=
  match s.commitment_to_randomness with
  | none => (.error (.subProtocolNotReadyToGenerateProof s.id), s)
  | some commitment =>
    match s.witnesses with
    | none => (.error .panicUnwrapNone, { s with commitment_to_randomness := none })
    | some w =>
      match cc.response commitment w challenge with
      | .error e => (.error (.fromCollab e), { s with commitment_to_randomness := none })
      | .ok responses =>
        (.ok ⟨cc.scT commitment, responses⟩, { s with commitment_to_randomness := none })

/-- The `SchnorrProtocol::gen_proof_contribution` method: wraps the struct
result in the `PedersenCommitment` statement-proof variant. -/
def SchnorrProtocol.gen_proof_contribution {G Fr SC Resp CErr Other : Type}
    (cc : SchnorrCollab G Fr SC Resp CErr) (s : SchnorrProtocol G Fr SC)
    (challenge : Fr) :
    Except (SchnorrPSError CErr) (StatementProofS G Resp Other) × SchnorrProtocol G Fr SC :=
  match SchnorrProtocol.gen_proof_contribution_as_struct cc s challenge with
  | (.error e, s') => (.error e, s')
  | (.ok p, s') => (.ok (.pedersenCommitment p), s')

/-- The `SchnorrProtocol::verify_proof_contribution_as_struct` method:
delegates validity checking to the collaborator, converting its error. -/
def SchnorrProtocol.verify_proof_contribution_as_struct {G Fr SC Resp CErr : Type}
    (cc : SchnorrCollab G Fr SC Resp CErr) (s : SchnorrProtocol G Fr SC)
    (challenge : Fr) (proof : PedersenCommitmentProof G Resp) :
    Except (SchnorrPSError CErr) Unit :=
  match cc.is_valid proof.response s.commitment_key s.commitment proof.t challenge with
  | .ok _ => .ok ()
  | .error e => .error (.fromCollab e)

/-- The `SchnorrProtocol::verify_proof_contribution` method: a `&self` method,
so the returned state is the input state.  A non-`PedersenCommitment` proof
variant fails with `ProofIncompatibleWithSchnorrProtocol`. -/
def SchnorrProtocol.verify_proof_contribution {G Fr SC Resp CErr Other : Type}
    (cc : SchnorrCollab G Fr SC Resp CErr) (s : SchnorrProtocol G Fr SC)
    (challenge : Fr) (proof : StatementProofS G Resp Other) :
    Except (SchnorrPSError CErr) Unit × SchnorrProtocol G Fr SC :=
  (match proof with
   | .pedersenCommitment p => SchnorrProtocol.verify_proof_contribution_as_struct cc s challenge p
   | .otherVariant _ => .error .proofIncompatibleWithSchnorrProtocol, s)

/-! ## Embedding of `proof_system/src/sub_protocols.rs` -/

/-- Error enumeration of the proof system as used by `sub_protocols.rs`:
there `SubProtocolNotReadyToGenerateProof` and `ProofIncompatibleWithProtocol`
carry the `Debug`-formatted statement (`format!("{:?}", self.statement)`),
modelled as the `String` produced by the collaborator bundle's formatter.
`fromBBSPlus` and `fromVBAccum` wrap collaborator errors, mirroring the `From`
conversions applied by `?`. -/
inductive ProofSystemError (BBSErr AccErr : Type) where
  | subProtocolAlreadyInitialized (id : Nat)
  | subProtocolNotReadyToGenerateChallenge (id : Nat)
  | subProtocolNotReadyToGenerateProof (stmt : String)
  | proofIncompatibleWithProtocol (stmt : String)
  | bbsPlusProtocolMessageAbsent (id : Nat) (idx : Nat)
  | fromBBSPlus (e : BBSErr)
  | fromVBAccum (e : AccErr)
deriving DecidableEq

/-- Statement proof enumeration of the `sub_protocols.rs` revision: one arm
per sub-protocol variant. -/
inductive StatementProof (BBSProof MemProof NonMemProof : Type) where
  | pokBBSSignatureG1 (p : BBSProof)
  | accumulatorMembership (p : MemProof)
  | accumulatorNonMembership (p : NonMemProof)
deriving DecidableEq

namespace Statement

/-- The `statement::PoKBBSSignatureG1` record: signature parameters, public
key, and the revealed messages keyed by index (the `BTreeMap<usize, Fr>` is
embedded as `Nat → Option Fr`). -/
structure PoKBBSSignatureG1 (Fr Params PK : Type) where
  params : Params
  public_key : PK
  revealed_messages : Nat → Option Fr

/-- An accumulator statement (`statement::AccumulatorMembership` and
`statement::AccumulatorNonMembership` have identical fields): accumulator
value, public key, parameters and proving key, all opaque pass-through values
for the collaborator. -/
structure Accumulator (AV APK APar APrk : Type) where
  accumulator_value : AV
  public_key : APK
  params : APar
  proving_key : APrk

end Statement

namespace Witness

/-- The `witness::PoKBBSSignatureG1` record: the signature and the unrevealed
messages keyed by index. -/
structure PoKBBSSignatureG1 (Fr Sig : Type) where
  signature : Sig
  unrevealed_messages : Nat → Option Fr

/-- The `witness::Membership` record: accumulated element and the membership
witness from the accumulator scheme. -/
structure Membership (Fr MemWit : Type) where
  element : Fr
  witness : MemWit

/-- The `witness::NonMembership` record: element and non-membership witness. -/
structure NonMembership (Fr NonMemWit : Type) where
  element : Fr
  witness : NonMemWit

end Witness

/-- Operations consumed from the `bbs_plus` collaborator crate, together with
the `max_message_count` accessor of the signature parameters and the `Debug`
formatter used when building error payloads. -/
structure BBSCollab (Fr Params PK Sig R PBBS BBSProof BBSErr : Type) where
  max_message_count : Params → Nat
  pokInit : R → Sig → Params → List Fr → (Nat → Option Fr) → List Nat → Except BBSErr PBBS
  pokGenProof : PBBS → Fr → Except BBSErr BBSProof
  verify : BBSProof → (Nat → Option Fr) → Fr → PK → Params → Except BBSErr Unit
  fmtStmt : Statement.PoKBBSSignatureG1 Fr Params PK → String

/-- Operations consumed from the `vb_accumulator` collaborator crate
(`MembershipProofProtocol` and `NonMembershipProofProtocol` expose the same
shape); note `init` and `gen_proof` are infallible in the source (no `?`). -/
structure AccumCollab (Fr R AV APK APar APrk Wit P PrfT Err : Type) where
  init : R → Fr → Option Fr → Wit → APK → APar → APrk → P
  gen_proof : P → Fr → PrfT
  verify : PrfT → AV → Fr → APK → APar → APrk → Except Err Unit
  fmtStmt : Statement.Accumulator AV APK APar APrk → String

/-- The `PoKBBSSigG1SubProtocol` struct: id, statement and the optional live
collaborator protocol instance. -/
structure PoKBBSSigG1SubProtocol (Fr Params PK PBBS : Type) where
  id : Nat
  statement : Statement.PoKBBSSignatureG1 Fr Params PK
  protocol : Option PBBS

/-- The `PoKBBSSigG1SubProtocol::new` constructor. -/
def PoKBBSSigG1SubProtocol.new {Fr Params PK PBBS : Type} (id : Nat)
    (statement : Statement.PoKBBSSignatureG1 Fr Params PK) :
    PoKBBSSigG1SubProtocol Fr Params PK PBBS :=
  { id, statement, protocol := none }

/-- The message-assembly loop of `PoKBBSSigG1SubProtocol::init`, iterating
slot indices `start, start+1, …` for `remaining` steps: a slot present in the
witness's unrevealed messages takes the witness value (the source `remove`s
the key, which is inert since each index is visited once); otherwise a slot
present in the statement's revealed messages takes the revealed value and the
index joins the revealed-indices set; otherwise the loop aborts with
`BBSPlusProtocolMessageAbsent(id, i)`. -/
def buildMessagesAux {Fr BBSErr AccErr : Type} (id : Nat)
    (unrev rev : Nat → Option Fr) :
    Nat → Nat → Except (ProofSystemError BBSErr AccErr) (List Fr × List Nat)
  | _, 0 => .ok ([], [])
  | start, remaining + 1 =>
    match unrev start with
    | some m =>
      match buildMessagesAux id unrev rev (start + 1) remaining with
      | .error e => .error e
      | .ok (ms, ris) => .ok (m :: ms, ris)
    | none =>
      match rev start with
      | some m =>
        match buildMessagesAux id unrev rev (start + 1) remaining with
        | .error e => .error e
        | .ok (ms, ris) => .ok (m :: ms, start :: ris)
      | none => .error (.bbsPlusProtocolMessageAbsent id start)

/-- The full message-assembly loop over `0..count`. -/
def buildMessages {Fr BBSErr AccErr : Type} (id : Nat) (unrev rev : Nat → Option Fr)
    (count : Nat) : Except (ProofSystemError BBSErr AccErr) (List Fr × List Nat) :=
  buildMessagesAux id unrev rev 0 count

/-- The `PoKBBSSigG1SubProtocol::init` method.  Assembles the full message
vector from witness and statement, then delegates to the collaborator's
`PoKOfSignatureG1Protocol::init`.  Note: unlike the Schnorr and accumulator
sub-protocols, the source performs no occupied-slot check here. -/
def PoKBBSSigG1SubProtocol.init {Fr Params PK Sig R PBBS BBSProof BBSErr AccErr : Type}
    (cc : BBSCollab Fr Params PK Sig R PBBS BBSProof BBSErr)
    (sp : PoKBBSSigG1SubProtocol Fr Params PK PBBS) (rng : R)
    (blindings : Nat → Option Fr) (witness : Witness.PoKBBSSignatureG1 Fr Sig) :
    Except (ProofSystemError BBSErr AccErr) Unit × PoKBBSSigG1SubProtocol Fr Params PK PBBS :=
  match buildMessages sp.id witness.unrevealed_messages sp.statement.revealed_messages
      (cc.max_message_count sp.statement.params) with
  | .error e => (.error e, sp)
  | .ok (messages, revealed_indices) =>
    match cc.pokInit rng witness.signature sp.statement.params messages blindings
        revealed_indices with
    | .error e => (.error (.fromBBSPlus e), sp)
    | .ok protocol => (.ok (), { sp with protocol := some protocol })

/-- The `PoKBBSSigG1SubProtocol::gen_proof_contribution` method: errors with
`SubProtocolNotReadyToGenerateProof` on an empty slot, else `take`s the
protocol and delegates to the collaborator's fallible `gen_proof`. -/
def PoKBBSSigG1SubProtocol.gen_proof_contribution
    {Fr Params PK Sig R PBBS BBSProof MemProof NonMemProof BBSErr AccErr : Type}
    (cc : BBSCollab Fr Params PK Sig R PBBS BBSProof BBSErr)
    (sp : PoKBBSSigG1SubProtocol Fr Params PK PBBS) (challenge : Fr) :
    Except (ProofSystemError BBSErr AccErr) (StatementProof BBSProof MemProof NonMemProof) ×
      PoKBBSSigG1SubProtocol Fr Params PK PBBS :=
  match sp.protocol with
  | none => (.error (.subProtocolNotReadyToGenerateProof (cc.fmtStmt sp.statement)), sp)
  | some protocol =>
    match cc.pokGenProof protocol challenge with
    | .error e => (.error (.fromBBSPlus e), { sp with protocol := none })
    | .ok proof => (.ok (.pokBBSSignatureG1 proof), { sp with protocol := none })

/-- The `PoKBBSSigG1SubProtocol::verify_proof_contribution` method: a `&self`
method (state returned unchanged); a non-matching proof variant fails with
`ProofIncompatibleWithProtocol` carrying the formatted statement. -/
def PoKBBSSigG1SubProtocol.verify_proof_contribution
    {Fr Params PK Sig R PBBS BBSProof MemProof NonMemProof BBSErr AccErr : Type}
    (cc : BBSCollab Fr Params PK Sig R PBBS BBSProof BBSErr)
    (sp : PoKBBSSigG1SubProtocol Fr Params PK PBBS) (challenge : Fr)
    (proof : StatementProof BBSProof MemProof NonMemProof) :
    Except (ProofSystemError BBSErr AccErr) Unit × PoKBBSSigG1SubProtocol Fr Params PK PBBS :=
  (match proof with
   | .pokBBSSignatureG1 p =>
     match cc.verify p sp.statement.revealed_messages challenge sp.statement.public_key
         sp.statement.params with
     | .ok _ => .ok ()
     | .error e => .error (.fromBBSPlus e)
   | _ => .error (.proofIncompatibleWithProtocol (cc.fmtStmt sp.statement)), sp)

/-- The `AccumulatorMembershipSubProtocol` struct. -/
structure AccumulatorMembershipSubProtocol (AV APK APar APrk P : Type) where
  id : Nat
  statement : Statement.Accumulator AV APK APar APrk
  protocol : Option P

/-- The `AccumulatorMembershipSubProtocol::new` constructor. -/
def AccumulatorMembershipSubProtocol.new {AV APK APar APrk P : Type} (id : Nat)
    (statement : Statement.Accumulator AV APK APar APrk) :
    AccumulatorMembershipSubProtocol AV APK APar APrk P :=
  { id, statement, protocol := none }

/-- The `AccumulatorMembershipSubProtocol::init` method: fails with
`SubProtocolAlreadyInitialized` when the slot is occupied, else stores the
collaborator's (infallible) protocol instance. -/
def AccumulatorMembershipSubProtocol.init
    {Fr R AV APK APar APrk MemWit P PrfT AccErr BBSErr : Type}
    (cc : AccumCollab Fr R AV APK APar APrk MemWit P PrfT AccErr)
    (sp : AccumulatorMembershipSubProtocol AV APK APar APrk P) (rng : R)
    (blinding : Option Fr) (witness : Witness.Membership Fr MemWit) :
    Except (ProofSystemError BBSErr AccErr) Unit ×
      AccumulatorMembershipSubProtocol AV APK APar APrk P :=
  if sp.protocol.isSome then
    (.error (.subProtocolAlreadyInitialized sp.id), sp)
  else
    (.ok (),
      { sp with
        protocol := some (cc.init rng witness.element blinding witness.witness
          sp.statement.public_key sp.statement.params sp.statement.proving_key) })

/-- The `AccumulatorMembershipSubProtocol::gen_proof_contribution` method. -/
def AccumulatorMembershipSubProtocol.gen_proof_contribution
    {Fr R AV APK APar APrk MemWit P PrfT AccErr BBSErr BBSProof NonMemProof : Type}
    (cc : AccumCollab Fr R AV APK APar APrk MemWit P PrfT AccErr)
    (sp : AccumulatorMembershipSubProtocol AV APK APar APrk P) (challenge : Fr) :
    Except (ProofSystemError BBSErr AccErr) (StatementProof BBSProof PrfT NonMemProof) ×
      AccumulatorMembershipSubProtocol AV APK APar APrk P :=
  match sp.protocol with
  | none => (.error (.subProtocolNotReadyToGenerateProof (cc.fmtStmt sp.statement)), sp)
  | some protocol =>
    (.ok (.accumulatorMembership (cc.gen_proof protocol challenge)),
      { sp with protocol := none })

/-- The `AccumulatorMembershipSubProtocol::verify_proof_contribution` method. -/
def AccumulatorMembershipSubProtocol.verify_proof_contribution
    {Fr R AV APK APar APrk MemWit P PrfT AccErr BBSErr BBSProof NonMemProof : Type}
    (cc : AccumCollab Fr R AV APK APar APrk MemWit P PrfT AccErr)
    (sp : AccumulatorMembershipSubProtocol AV APK APar APrk P) (challenge : Fr)
    (proof : StatementProof BBSProof PrfT NonMemProof) :
    Except (ProofSystemError BBSErr AccErr) Unit ×
      AccumulatorMembershipSubProtocol AV APK APar APrk P :=
  (match proof with
   | .accumulatorMembership p =>
     match cc.verify p sp.statement.accumulator_value challenge sp.statement.public_key
         sp.statement.params sp.statement.proving_key with
     | .ok _ => .ok ()
     | .error e => .error (.fromVBAccum e)
   | _ => .error (.proofIncompatibleWithProtocol (cc.fmtStmt sp.statement)), sp)

/-- The `AccumulatorNonMembershipSubProtocol` struct. -/
structure AccumulatorNonMembershipSubProtocol (AV APK APar APrk P : Type) where
  id : Nat
  statement : Statement.Accumulator AV APK APar APrk
  protocol : Option P

/-- The `AccumulatorNonMembershipSubProtocol::new` constructor. -/
def AccumulatorNonMembershipSubProtocol.new {AV APK APar APrk P : Type} (id : Nat)
    (statement : Statement.Accumulator AV APK APar APrk) :
    AccumulatorNonMembershipSubProtocol AV APK APar APrk P :=
  { id, statement, protocol := none }

/-- The `AccumulatorNonMembershipSubProtocol::init` method. -/
def AccumulatorNonMembershipSubProtocol.init
    {Fr R AV APK APar APrk NonMemWit P PrfT AccErr BBSErr : Type}
    (cc : AccumCollab Fr R AV APK APar APrk NonMemWit P PrfT AccErr)
    (sp : AccumulatorNonMembershipSubProtocol AV APK APar APrk P) (rng : R)
    (blinding : Option Fr) (witness : Witness.NonMembership Fr NonMemWit) :
    Except (ProofSystemError BBSErr AccErr) Unit ×
      AccumulatorNonMembershipSubProtocol AV APK APar APrk P :=
  if sp.protocol.isSome then
    (.error (.subProtocolAlreadyInitialized sp.id), sp)
  else
    (.ok (),
      { sp with
        protocol := some (cc.init rng witness.element blinding witness.witness
          sp.statement.public_key sp.statement.params sp.statement.proving_key) })

/-- The `AccumulatorNonMembershipSubProtocol::gen_proof_contribution` method. -/
def AccumulatorNonMembershipSubProtocol.gen_proof_contribution
    {Fr R AV APK APar APrk NonMemWit P PrfT AccErr BBSErr BBSProof MemProof : Type}
    (cc : AccumCollab Fr R AV APK APar APrk NonMemWit P PrfT AccErr)
    (sp : AccumulatorNonMembershipSubProtocol AV APK APar APrk P) (challenge : Fr) :
    Except (ProofSystemError BBSErr AccErr) (StatementProof BBSProof MemProof PrfT) ×
      AccumulatorNonMembershipSubProtocol AV APK APar APrk P :=
  match sp.protocol with
  | none => (.error (.subProtocolNotReadyToGenerateProof (cc.fmtStmt sp.statement)), sp)
  | some protocol =>
    (.ok (.accumulatorNonMembership (cc.gen_proof protocol challenge)),
      { sp with protocol := none })

/-- The `AccumulatorNonMembershipSubProtocol::verify_proof_contribution`
method. -/
def AccumulatorNonMembershipSubProtocol.verify_proof_contribution
    {Fr R AV APK APar APrk NonMemWit P PrfT AccErr BBSErr BBSProof MemProof : Type}
    (cc : AccumCollab Fr R AV APK APar APrk NonMemWit P PrfT AccErr)
    (sp : AccumulatorNonMembershipSubProtocol AV APK APar APrk P) (challenge : Fr)
    (proof : StatementProof BBSProof MemProof PrfT) :
    Except (ProofSystemError BBSErr AccErr) Unit ×
      AccumulatorNonMembershipSubProtocol AV APK APar APrk P :=
  (match proof with
   | .accumulatorNonMembership p =>
     match cc.verify p sp.statement.accumulator_value challenge sp.statement.public_key
         sp.statement.params sp.statement.proving_key with
     | .ok _ => .ok ()
     | .error e => .error (.fromVBAccum e)
   | _ => .error (.proofIncompatibleWithProtocol (cc.fmtStmt sp.statement)), sp)

/-- The `SubProtocol` enum over the three statement-specific variants. -/
inductive SubProtocol (Fr Params PK PBBS AV APK APar APrk PMem PNonMem : Type) where
  | pokBBSSignatureG1 (s : PoKBBSSigG1SubProtocol Fr Params PK PBBS)
  | accumulatorMembership (s : AccumulatorMembershipSubProtocol AV APK APar APrk PMem)
  | accumulatorNonMembership (s : AccumulatorNonMembershipSubProtocol AV APK APar APrk PNonMem)

/-- The `SubProtocol::verify_proof_contribution` dispatcher: pattern matches
on the variant and delegates, re-wrapping the (unchanged) inner state. -/
def SubProtocol.verify_proof_contribution
    {Fr Params PK Sig R PBBS BBSProof AV APK APar APrk MemWit NonMemWit PMem PNonMem
      MemProof NonMemProof BBSErr AccErr : Type}
    (cb : BBSCollab Fr Params PK Sig R PBBS BBSProof BBSErr)
    (cm : AccumCollab Fr R AV APK APar APrk MemWit PMem MemProof AccErr)
    (cn : AccumCollab Fr R AV APK APar APrk NonMemWit PNonMem NonMemProof AccErr)
    (sp : SubProtocol Fr Params PK PBBS AV APK APar APrk PMem PNonMem) (challenge : Fr)
    (proof : StatementProof BBSProof MemProof NonMemProof) :
    Except (ProofSystemError BBSErr AccErr) Unit ×
      SubProtocol Fr Params PK PBBS AV APK APar APrk PMem PNonMem :=
  match sp with
  | .pokBBSSignatureG1 s =>
    match PoKBBSSigG1SubProtocol.verify_proof_contribution cb s challenge proof with
    | (r, s') => (r, .pokBBSSignatureG1 s')
  | .accumulatorMembership s =>
    match AccumulatorMembershipSubProtocol.verify_proof_contribution cm s challenge proof with
    | (r, s') => (r, .accumulatorMembership s')
  | .accumulatorNonMembership s =>
    match AccumulatorNonMembershipSubProtocol.verify_proof_contribution cn s challenge proof with
    | (r, s') => (r, .accumulatorNonMembership s')

/-! ## Spec-modelled proof orchestrator

The proof orchestrator (`prove`/`verify`), `ProofSpec` validation, the
witness-equality machinery and the bound-check strategy selection live in
repository code that is not among the provided sources (only their tests
call them).  They are modelled here from the specification (sections 3,
4.1, 4.4, 4.5, 4.6 and 8 of spec.md). -/

namespace SpecModel

/-- Modelled from the spec: `should_use_cls(min, max)` of the bound-check
sub-protocol module (`sub_protocols::bound_check_smc`), whose source is not
among the provided files.  A deterministic pure function of `(min, max)`:
true exactly when the range width `max - min` is below the fixed threshold
(a compressed set-membership table on the order of 2^21 elements), so that
the CCS compressed-commitment-set strategy is usable; at or above the
threshold the CLS strategy is selected instead. -/
def should_use_cls (min max : Nat) : Bool :=
  max - min < 2 ^ 21

/-- Modelled from the spec: one generic sigma-protocol statement — public
bases `(g_1, …, g_k)` and a public commitment `C`, claiming knowledge of an
opening `(w_1, …, w_k)` with `C = Σ w_i • g_i`.  Every statement variant of
the orchestrator exposes this uniform contract (spec section 4.1). -/
structure SpecStatement (Fr G : Type) where
  bases : List G
  commitment : G

/-- Modelled from the spec: a `ProofSpec` — the ordered statements (position
is the statement id) plus the meta-statements, each an equality class of
`WitnessRef`s, pairs `(statement id, witness-component index)`. -/
structure SpecProofSpec (Fr G : Type) where
  statements : List (SpecStatement Fr G)
  meta_statements : List (List (Nat × Nat))

/-- Multi-scalar combination `Σ sᵢ • gᵢ` over paired lists. -/
def msm {Fr G : Type} [AddCommMonoid G] [SMul Fr G] (scalars : List Fr)
    (bases : List G) : G :=
  (List.zipWith (fun a g => a • g) scalars bases).sum

/-- A `WitnessRef` addresses an existing statement id and a witness-component
index that statement actually exposes. -/
def refValid {Fr G : Type} (spec : SpecProofSpec Fr G) (r : Nat × Nat) : Bool :=
  match spec.statements[r.1]? with
  | some st => decide (r.2 < st.bases.length)
  | none => false

/-- Pairwise disjointness of the equality classes: the orchestrator resolves
the constraints into a partition of the witness refs before any sub-protocol
initializes (spec section 4.5), so the declared classes must not overlap. -/
def disjointClasses : List (List (Nat × Nat)) → Bool
  | [] => true
  | c :: rest =>
    (c.all fun r => rest.all fun c2 => !(c2.contains r)) && disjointClasses rest

/-- Modelled from the spec: `ProofSpec::validate` — every `WitnessRef` in
every meta-statement must resolve, each equality class has size at least two,
and the classes form a partition (pairwise disjoint). -/
def SpecProofSpec.validate {Fr G : Type} (spec : SpecProofSpec Fr G) : Bool :=
  (spec.meta_statements.all fun cls =>
    decide (2 ≤ cls.length) && cls.all (refValid spec)) &&
  disjointClasses spec.meta_statements

/-- The first equality class containing a ref, reduced to its representative
(head); `none` for unconstrained refs. -/
def classLookup : List (List (Nat × Nat)) → (Nat × Nat) → Option (Nat × Nat)
  | [], _ => none
  | c :: rest, r => if c.contains r then c.head? else classLookup rest r

/-- Modelled from the spec: the shared-blinding assignment of section 4.5 —
for each equality class one shared blinding value (the raw randomness drawn
at the class representative), and an independent value for every
unconstrained ref.  The randomness source is an oracle `rand` indexed by
witness ref. -/
def blindingOf {Fr : Type} (meta : List (List (Nat × Nat))) (rand : Nat → Nat → Fr)
    (r : Nat × Nat) : Fr :=
  match classLookup meta r with
  | some rep => rand rep.1 rep.2
  | none => rand r.1 r.2

/-- The witness vector of statement `i` (empty when out of range). -/
def witsAt {Fr : Type} (wits : List (List Fr)) (i : Nat) : List Fr :=
  wits[i]?.getD []

/-- The blinding vector used by statement `i`'s sub-protocol. -/
def blindsAt {Fr G : Type} (spec : SpecProofSpec Fr G) (wits : List (List Fr))
    (rand : Nat → Nat → Fr) (i : Nat) : List Fr :=
  (List.range (witsAt wits i).length).map fun j =>
    blindingOf spec.meta_statements rand (i, j)

/-- The bases of statement `i` (empty when out of range). -/
def basesAt {Fr G : Type} (spec : SpecProofSpec Fr G) (i : Nat) : List G :=
  match spec.statements[i]? with
  | some st => st.bases
  | none => []

/-- The commitment-to-randomness `tᵢ = Σ rᵢⱼ • gᵢⱼ` of statement `i`. -/
def tAt {Fr G : Type} [AddCommMonoid G] [SMul Fr G] (spec : SpecProofSpec Fr G)
    (wits : List (List Fr)) (rand : Nat → Nat → Fr) (i : Nat) : G :=
  msm (blindsAt spec wits rand i) (basesAt spec i)

/-- All commitments to randomness, in statement-id order. -/
def tList {Fr G : Type} [AddCommMonoid G] [SMul Fr G] (spec : SpecProofSpec Fr G)
    (wits : List (List Fr)) (rand : Nat → Nat → Fr) : List G :=
  (List.range spec.statements.length).map (tAt spec wits rand)

/-- Modelled from the spec: the Fiat-Shamir transcript — each sub-protocol's
contribution (bases, commitment) in statement-id order followed by the
commitments to randomness. -/
def transcript {Fr G : Type} (spec : SpecProofSpec Fr G) (ts : List G) : List G :=
  (spec.statements.map SpecStatement.bases).flatten ++
    spec.statements.map SpecStatement.commitment ++ ts

/-- Modelled from the spec: the derived challenge — the transcript hashed to
one field element by the (abstract) hash function. -/
def challengeOf {Fr G : Type} (hash : List G → Fr) (spec : SpecProofSpec Fr G)
    (ts : List G) : Fr :=
  hash (transcript spec ts)

/-- One statement-proof part: `(t, {sᵢ})`. -/
structure SpecStatementProof (Fr G : Type) where
  t : G
  responses : List Fr

/-- A full proof: one statement-proof per statement, in id order. -/
structure SpecProof (Fr G : Type) where
  statement_proofs : List (SpecStatementProof Fr G)

/-- Modelled from the spec: the orchestrator error taxonomy (section 7)
restricted to the arms the orchestrator itself raises. -/
inductive SpecError where
  | structuralInvalid
  | invalidProofStructure
  | statementCheckFailed (id : Nat)
  | witnessEqualityViolated
deriving DecidableEq

/-- The response vector of statement `i`: `sᵢⱼ = rᵢⱼ + c·wᵢⱼ`. -/
def respsAt {Fr G : Type} [Mul Fr] [Add Fr] (spec : SpecProofSpec Fr G)
    (wits : List (List Fr)) (rand : Nat → Nat → Fr) (c : Fr) (i : Nat) : List Fr :=
  List.zipWith (fun r w => r + c * w) (blindsAt spec wits rand i) (witsAt wits i)

/-- Modelled from the spec: `prove` (section 4.6) — validate, initialize with
shared blindings, derive the Fiat-Shamir challenge from the transcript, then
generate every statement proof in id order. -/
def prove {Fr G : Type} [Mul Fr] [Add Fr] [AddCommMonoid G] [SMul Fr G]
    (hash : List G → Fr) (rand : Nat → Nat → Fr) (spec : SpecProofSpec Fr G)
    (wits : List (List Fr)) : Except SpecError (SpecProof Fr G) :=
  if spec.validate then
    let c := challengeOf hash spec (tList spec wits rand)
    .ok ⟨(List.range spec.statements.length).map fun i =>
      ⟨tAt spec wits rand i, respsAt spec wits rand c i⟩⟩
  else .error .structuralInvalid

/-- Modelled from the spec: the verification equation of one statement —
`Σ sᵢ • gᵢ = t + c • C` with matching response arity (section 4.1, in
additive notation). -/
def checkStatement {Fr G : Type} [AddCommMonoid G] [SMul Fr G] [DecidableEq G]
    (c : Fr) (st : SpecStatement Fr G) (p : SpecStatementProof Fr G) : Bool :=
  decide (p.responses.length = st.bases.length) &&
    decide (msm p.responses st.bases = p.t + c • st.commitment)

/-- The index of the first statement whose check fails (verification
short-circuits with the originating statement id, spec section 4.6). -/
def firstFailIdx {Fr G : Type} [AddCommMonoid G] [SMul Fr G] [DecidableEq G]
    (c : Fr) : List (SpecStatement Fr G × SpecStatementProof Fr G) → Nat → Option Nat
  | [], _ => none
  | (st, p) :: rest, i =>
    if checkStatement c st p then firstFailIdx c rest (i + 1) else some i

/-- The response scalar a proof holds at a witness ref. -/
def respAt {Fr G : Type} (proof : SpecProof Fr G) (r : Nat × Nat) : Option Fr :=
  proof.statement_proofs[r.1]?.bind fun p => p.responses[r.2]?

/-- Modelled from the spec: one equality class passes when every linked
response scalar is present and exactly equal to the class head's. -/
def classOk {Fr G : Type} [DecidableEq Fr] (proof : SpecProof Fr G) :
    List (Nat × Nat) → Bool
  | [] => true
  | r :: rest =>
    match respAt proof r with
    | none => false
    | some v => rest.all fun r2 => decide (respAt proof r2 = some v)

/-- Modelled from the spec: `verify` (section 4.6) — validate, rebuild the
transcript from public data and the received proof parts, recompute the
challenge, verify each statement proof in id order (failing with the first
offending id), then check every witness-equality constraint by exact
comparison of the linked response scalars. -/
def verify {Fr G : Type} [DecidableEq Fr] [AddCommMonoid G] [SMul Fr G]
    [DecidableEq G] (hash : List G → Fr) (spec : SpecProofSpec Fr G)
    (proof : SpecProof Fr G) : Except SpecError Unit :=
  if spec.validate then
    if proof.statement_proofs.length = spec.statements.length then
      let c := challengeOf hash spec (proof.statement_proofs.map SpecStatementProof.t)
      match firstFailIdx c (spec.statements.zip proof.statement_proofs) 0 with
      | some i => .error (.statementCheckFailed i)
      | none =>
        if spec.meta_statements.all (classOk proof) then .ok ()
        else .error .witnessEqualityViolated
    else .error .invalidProofStructure
  else .error .structuralInvalid

/-- Witnesses genuinely satisfy every statement: one witness vector per
statement, of the statement's arity, opening the statement's commitment. -/
def satisfiesStatements {Fr G : Type} [AddCommMonoid G] [SMul Fr G] [DecidableEq G]
    (spec : SpecProofSpec Fr G) (wits : List (List Fr)) : Bool :=
  decide (wits.length = spec.statements.length) &&
    (spec.statements.zip wits).all fun p =>
      decide (p.2.length = p.1.bases.length) && decide (msm p.2 p.1.bases = p.1.commitment)

/-- The witness value at a witness ref. -/
def witAt {Fr : Type} (wits : List (List Fr)) (r : Nat × Nat) : Option Fr :=
  wits[r.1]?.bind fun w => w[r.2]?

/-- Witnesses genuinely satisfy every equality constraint: within each class
all referenced witness values are present and equal. -/
def satisfiesEqualities {Fr : Type} [DecidableEq Fr] (wits : List (List Fr))
    (meta : List (List (Nat × Nat))) : Bool :=
  meta.all fun cls =>
    match cls with
    | [] => true
    | r :: rest =>
      match witAt wits r with
      | none => false
      | some v => rest.all fun r2 => decide (witAt wits r2 = some v)

end SpecModel

/-! ## Concrete instantiations

Closed instances of the abstract collaborator bundles and protocol states,
used to evaluate the embedded operations on explicit inputs. -/

/-- A trivial `schnorr_pok` collaborator over unit carriers (challenges are
naturals); its `response` and `is_valid` always succeed. -/
def unitSchnorrCollab : SchnorrCollab Unit Nat Unit Unit Unit :=
  ⟨fun _ _ => (), fun _ => (), fun _ _ _ => .ok (), fun _ _ _ _ _ => .ok ()⟩

/-- A committed Schnorr protocol instance: both slots occupied. -/
def schnorrSpC : SchnorrProtocol Unit Nat Unit :=
  { id := 7, commitment_key := [], commitment := ()
    commitment_to_randomness := some (), witnesses := some [] }

/-- A trivial `bbs_plus` collaborator: messages are naturals, the signature
parameters value is its own `max_message_count`, and every operation
succeeds. -/
def natBBSCollab : BBSCollab Nat Nat Unit Unit Unit Unit Unit Unit :=
  { max_message_count := fun p => p
    pokInit := fun _ _ _ _ _ _ => .ok ()
    pokGenProof := fun _ _ => .ok ()
    verify := fun _ _ _ _ _ => .ok ()
    fmtStmt := fun _ => "PoKBBSSignatureG1Statement" }

/-- Unrevealed-messages map supplying slots 0, 1 and 2. -/
def unrevC : Nat → Option Nat := fun i => if i < 3 then some (i + 10) else none

/-- Revealed-messages map supplying slot 1 only (overlapping `unrevC`). -/
def revC : Nat → Option Nat := fun i => if i = 1 then some 99 else none

/-- Unrevealed-messages map supplying slot 0 only, leaving slot 1 uncovered. -/
def unrevMissing : Nat → Option Nat := fun i => if i = 0 then some 5 else none

/-- A BBS+ statement over three message slots revealing slot 1. -/
def bbsStmtC : Statement.PoKBBSSignatureG1 Nat Nat Unit := ⟨3, (), revC⟩

/-- A fresh BBS+ sub-protocol instance for `bbsStmtC`. -/
def bbsSpC : PoKBBSSigG1SubProtocol Nat Nat Unit Unit := ⟨5, bbsStmtC, none⟩

/-- A BBS+ sub-protocol instance whose protocol slot is already occupied. -/
def bbsSpOccupied : PoKBBSSigG1SubProtocol Nat Nat Unit Unit := ⟨5, bbsStmtC, some ()⟩

/-- A BBS+ witness carrying `unrevC`. -/
def bbsWitC : Witness.PoKBBSSignatureG1 Nat Unit := ⟨(), unrevC⟩

/-- A BBS+ witness carrying `unrevMissing`. -/
def bbsWitMissing : Witness.PoKBBSSignatureG1 Nat Unit := ⟨(), unrevMissing⟩

/-- A trivial `vb_accumulator` collaborator over unit carriers. -/
def unitAccumCollab : AccumCollab Nat Unit Unit Unit Unit Unit Unit Unit Unit Unit :=
  ⟨fun _ _ _ _ _ _ _ => (), fun _ _ => (), fun _ _ _ _ _ _ => .ok (),
    fun _ => "AccumulatorStatement"⟩

/-- An accumulator statement over unit carriers. -/
def accStmtC : Statement.Accumulator Unit Unit Unit Unit := ⟨(), (), (), ()⟩

/-- An initialized accumulator-membership sub-protocol instance. -/
def memSpC : AccumulatorMembershipSubProtocol Unit Unit Unit Unit Unit :=
  ⟨2, accStmtC, some ()⟩

/-- An initialized accumulator-non-membership sub-protocol instance. -/
def nonmemSpC : AccumulatorNonMembershipSubProtocol Unit Unit Unit Unit Unit :=
  ⟨3, accStmtC, some ()⟩

/-- A membership witness over unit carriers. -/
def memWitC : Witness.Membership Nat Unit := ⟨0, ()⟩

/-- A non-membership witness over unit carriers. -/
def nonmemWitC : Witness.NonMembership Nat Unit := ⟨0, ()⟩

instance fact_prime_eleven : Fact (Nat.Prime 11) := ⟨by norm_num⟩

/-- A concrete valid scenario for the orchestrator model, shaped like the
repository's bound-check test: statement 0 is a five-message signature
statement over messages `[101, …, 105] = [min+1, …, min+5]` for `min = 100`,
statement 1 the bound-check statement over the in-range value `102`, equality
linking signed message index 1 to the bound-check witness. -/
def specC3 : SpecModel.SpecProofSpec (ZMod 11) (ZMod 11) :=
  ⟨[⟨[1, 1, 1, 1, 1], 515⟩, ⟨[2], 204⟩], [[(0, 1), (1, 0)]]⟩

/-- The witnesses genuinely satisfying `specC3`. -/
def witsC3 : List (List (ZMod 11)) := [[101, 102, 103, 104, 105], [102]]

/-- The mismatch scenario of the repository's bound-check test: the
bound-check witness `110 = min + 10` is linked to signed message index 0,
whose actual value is `101`. -/
def specC4 : SpecModel.SpecProofSpec (ZMod 11) (ZMod 11) :=
  ⟨[⟨[1, 1, 1, 1, 1], 515⟩, ⟨[1], 110⟩], [[(0, 0), (1, 0)]]⟩

/-- Witnesses satisfying each statement of `specC4` individually but
violating the equality link. -/
def witsC4 : List (List (ZMod 11)) := [[101, 102, 103, 104, 105], [110]]

/-- A concrete (degenerate but nonzero) Fiat-Shamir hash for the model. -/
def hashC : List (ZMod 11) → ZMod 11 := fun _ => 1

/-- A concrete randomness oracle for the model. -/
def randC : Nat → Nat → ZMod 11 := fun _ _ => 0

/-! ## Claim theorems -/

/-- C6: `should_use_cls(min, max)` is a deterministic pure function of
`(min, max)`: it equals the decision `max - min < 2^21` at every input, so it
returns true exactly when the width is below the fixed threshold — in
particular true at `(100, 200)` and false at `(100, 100 + 2^21)` — and a
prover and a verifier recomputing it from the same pair always select the
same strategy. -/
theorem should_use_cls_pure_threshold :
    (∀ min max : Nat, SpecModel.should_use_cls min max = decide (max - min < 2 ^ 21))
      ∧ SpecModel.should_use_cls 100 200 = true
      ∧ SpecModel.should_use_cls 100 (100 + 2 ^ 21) = false :=
  ⟨fun _ _ => rfl, by decide, by decide⟩

/-- C7: for every sub-protocol instance and every challenge,
`verify_proof_contribution` applied to a `StatementProof` of a non-matching
variant fails with `ProofIncompatibleWithProtocol`
(`ProofIncompatibleWithSchnorrProtocol` for the Schnorr protocol), and it
does so for arbitrary collaborator verification functions — no cryptographic
verification is consulted. -/
theorem verify_mismatched_variant_incompatible :
    (∀ (G Fr SC Resp CErr Other : Type) (cc : SchnorrCollab G Fr SC Resp CErr)
        (s : SchnorrProtocol G Fr SC) (c : Fr) (o : Other),
        (SchnorrProtocol.verify_proof_contribution cc s c (.otherVariant o)).1
          = .error .proofIncompatibleWithSchnorrProtocol)
    ∧ (∀ (Fr Params PK Sig R PBBS BBSProof MemProof NonMemProof BBSErr AccErr : Type)
        (cc : BBSCollab Fr Params PK Sig R PBBS BBSProof BBSErr)
        (sp : PoKBBSSigG1SubProtocol Fr Params PK PBBS) (c : Fr)
        (pm : MemProof) (pn : NonMemProof),
        ((PoKBBSSigG1SubProtocol.verify_proof_contribution cc sp c
            (StatementProof.accumulatorMembership pm
              : StatementProof BBSProof MemProof NonMemProof)
          : Except (ProofSystemError BBSErr AccErr) Unit ×
              PoKBBSSigG1SubProtocol Fr Params PK PBBS)).1
          = .error (.proofIncompatibleWithProtocol (cc.fmtStmt sp.statement))
        ∧ ((PoKBBSSigG1SubProtocol.verify_proof_contribution cc sp c
            (StatementProof.accumulatorNonMembership pn
              : StatementProof BBSProof MemProof NonMemProof)
          : Except (ProofSystemError BBSErr AccErr) Unit ×
              PoKBBSSigG1SubProtocol Fr Params PK PBBS)).1
          = .error (.proofIncompatibleWithProtocol (cc.fmtStmt sp.statement)))
    ∧ (∀ (Fr R AV APK APar APrk MemWit P PrfT AccErr BBSErr BBSProof NonMemProof : Type)
        (cc : AccumCollab Fr R AV APK APar APrk MemWit P PrfT AccErr)
        (sp : AccumulatorMembershipSubProtocol AV APK APar APrk P) (c : Fr)
        (pb : BBSProof) (pn : NonMemProof),
        ((AccumulatorMembershipSubProtocol.verify_proof_contribution cc sp c
            (StatementProof.pokBBSSignatureG1 pb : StatementProof BBSProof PrfT NonMemProof)
          : Except (ProofSystemError BBSErr AccErr) Unit ×
              AccumulatorMembershipSubProtocol AV APK APar APrk P)).1
          = .error (.proofIncompatibleWithProtocol (cc.fmtStmt sp.statement))
        ∧ ((AccumulatorMembershipSubProtocol.verify_proof_contribution cc sp c
            (StatementProof.accumulatorNonMembership pn
              : StatementProof BBSProof PrfT NonMemProof)
          : Except (ProofSystemError BBSErr AccErr) Unit ×
              AccumulatorMembershipSubProtocol AV APK APar APrk P)).1
          = .error (.proofIncompatibleWithProtocol (cc.fmtStmt sp.statement)))
    ∧ (∀ (Fr R AV APK APar APrk NonMemWit P PrfT AccErr BBSErr BBSProof MemProof : Type)
        (cc : AccumCollab Fr R AV APK APar APrk NonMemWit P PrfT AccErr)
        (sp : AccumulatorNonMembershipSubProtocol AV APK APar APrk P) (c : Fr)
        (pb : BBSProof) (pm : MemProof),
        ((AccumulatorNonMembershipSubProtocol.verify_proof_contribution cc sp c
            (StatementProof.pokBBSSignatureG1 pb : StatementProof BBSProof MemProof PrfT)
          : Except (ProofSystemError BBSErr AccErr) Unit ×
              AccumulatorNonMembershipSubProtocol AV APK APar APrk P)).1
          = .error (.proofIncompatibleWithProtocol (cc.fmtStmt sp.statement))
        ∧ ((AccumulatorNonMembershipSubProtocol.verify_proof_contribution cc sp c
            (StatementProof.accumulatorMembership pm : StatementProof BBSProof MemProof PrfT)
          : Except (ProofSystemError BBSErr AccErr) Unit ×
              AccumulatorNonMembershipSubProtocol AV APK APar APrk P)).1
          = .error (.proofIncompatibleWithProtocol (cc.fmtStmt sp.statement))) :=
  ⟨by intros; rfl, by intros; exact ⟨rfl, rfl⟩, by intros; exact ⟨rfl, rfl⟩,
   by intros; exact ⟨rfl, rfl⟩⟩

/-- C8: `verify_proof_contribution` performs no state mutation on any
sub-protocol variant (nor through the `SubProtocol` dispatcher): the returned
state equals the input state, and a repeated call with the same challenge and
proof returns the same result. -/
theorem verify_proof_contribution_stateless :
    (∀ (G Fr SC Resp CErr Other : Type) (cc : SchnorrCollab G Fr SC Resp CErr)
        (s : SchnorrProtocol G Fr SC) (c : Fr) (p : StatementProofS G Resp Other),
        (SchnorrProtocol.verify_proof_contribution cc s c p).2 = s
        ∧ (SchnorrProtocol.verify_proof_contribution cc
              (SchnorrProtocol.verify_proof_contribution cc s c p).2 c p).1
          = (SchnorrProtocol.verify_proof_contribution cc s c p).1)
    ∧ (∀ (Fr Params PK Sig R PBBS BBSProof MemProof NonMemProof BBSErr AccErr : Type)
        (cc : BBSCollab Fr Params PK Sig R PBBS BBSProof BBSErr)
        (sp : PoKBBSSigG1SubProtocol Fr Params PK PBBS) (c : Fr)
        (p : StatementProof BBSProof MemProof NonMemProof),
        ((PoKBBSSigG1SubProtocol.verify_proof_contribution cc sp c p
          : Except (ProofSystemError BBSErr AccErr) Unit ×
              PoKBBSSigG1SubProtocol Fr Params PK PBBS)).2 = sp
        ∧ ((PoKBBSSigG1SubProtocol.verify_proof_contribution cc
              ((PoKBBSSigG1SubProtocol.verify_proof_contribution cc sp c p
                : Except (ProofSystemError BBSErr AccErr) Unit ×
                    PoKBBSSigG1SubProtocol Fr Params PK PBBS)).2 c p
            : Except (ProofSystemError BBSErr AccErr) Unit ×
                PoKBBSSigG1SubProtocol Fr Params PK PBBS)).1
          = ((PoKBBSSigG1SubProtocol.verify_proof_contribution cc sp c p
            : Except (ProofSystemError BBSErr AccErr) Unit ×
                PoKBBSSigG1SubProtocol Fr Params PK PBBS)).1)
    ∧ (∀ (Fr R AV APK APar APrk MemWit P PrfT AccErr BBSErr BBSProof NonMemProof : Type)
        (cc : AccumCollab Fr R AV APK APar APrk MemWit P PrfT AccErr)
        (sp : AccumulatorMembershipSubProtocol AV APK APar APrk P) (c : Fr)
        (p : StatementProof BBSProof PrfT NonMemProof),
        ((AccumulatorMembershipSubProtocol.verify_proof_contribution cc sp c p
          : Except (ProofSystemError BBSErr AccErr) Unit ×
              AccumulatorMembershipSubProtocol AV APK APar APrk P)).2 = sp
        ∧ ((AccumulatorMembershipSubProtocol.verify_proof_contribution cc
              ((AccumulatorMembershipSubProtocol.verify_proof_contribution cc sp c p
                : Except (ProofSystemError BBSErr AccErr) Unit ×
                    AccumulatorMembershipSubProtocol AV APK APar APrk P)).2 c p
            : Except (ProofSystemError BBSErr AccErr) Unit ×
                AccumulatorMembershipSubProtocol AV APK APar APrk P)).1
          = ((AccumulatorMembershipSubProtocol.verify_proof_contribution cc sp c p
            : Except (ProofSystemError BBSErr AccErr) Unit ×
                AccumulatorMembershipSubProtocol AV APK APar APrk P)).1)
    ∧ (∀ (Fr R AV APK APar APrk NonMemWit P PrfT AccErr BBSErr BBSProof MemProof : Type)
        (cc : AccumCollab Fr R AV APK APar APrk NonMemWit P PrfT AccErr)
        (sp : AccumulatorNonMembershipSubProtocol AV APK APar APrk P) (c : Fr)
        (p : StatementProof BBSProof MemProof PrfT),
        ((AccumulatorNonMembershipSubProtocol.verify_proof_contribution cc sp c p
          : Except (ProofSystemError BBSErr AccErr) Unit ×
              AccumulatorNonMembershipSubProtocol AV APK APar APrk P)).2 = sp
        ∧ ((AccumulatorNonMembershipSubProtocol.verify_proof_contribution cc
              ((AccumulatorNonMembershipSubProtocol.verify_proof_contribution cc sp c p
                : Except (ProofSystemError BBSErr AccErr) Unit ×
                    AccumulatorNonMembershipSubProtocol AV APK APar APrk P)).2 c p
            : Except (ProofSystemError BBSErr AccErr) Unit ×
                AccumulatorNonMembershipSubProtocol AV APK APar APrk P)).1
          = ((AccumulatorNonMembershipSubProtocol.verify_proof_contribution cc sp c p
            : Except (ProofSystemError BBSErr AccErr) Unit ×
                AccumulatorNonMembershipSubProtocol AV APK APar APrk P)).1)
    ∧ (∀ (Fr Params PK Sig R PBBS BBSProof AV APK APar APrk MemWit NonMemWit PMem PNonMem
          MemProof NonMemProof BBSErr AccErr : Type)
        (cb : BBSCollab Fr Params PK Sig R PBBS BBSProof BBSErr)
        (cm : AccumCollab Fr R AV APK APar APrk MemWit PMem MemProof AccErr)
        (cn : AccumCollab Fr R AV APK APar APrk NonMemWit PNonMem NonMemProof AccErr)
        (sp : SubProtocol Fr Params PK PBBS AV APK APar APrk PMem PNonMem) (c : Fr)
        (p : StatementProof BBSProof MemProof NonMemProof),
        (SubProtocol.verify_proof_contribution cb cm cn sp c p).2 = sp
        ∧ (SubProtocol.verify_proof_contribution cb cm cn
              (SubProtocol.verify_proof_contribution cb cm cn sp c p).2 c p).1
          = (SubProtocol.verify_proof_contribution cb cm cn sp c p).1) :=
  ⟨by intros; exact ⟨rfl, rfl⟩, by intros; exact ⟨rfl, rfl⟩,
   by intros; exact ⟨rfl, rfl⟩, by intros; exact ⟨rfl, rfl⟩,
   by intros; rename_i sp c p; cases sp <;> exact ⟨rfl, rfl⟩⟩

/-- C1: for every sub-protocol instance (Schnorr/Pedersen, BBS+
signature-knowledge, accumulator membership, accumulator non-membership), if
a proof-generation call returns `Ok`, any second call on the resulting
instance, with any challenge, fails with `SubProtocolNotReadyToGenerateProof`
instead of producing a second proof from the same commitment. -/
theorem gen_proof_contribution_single_use :
    (∀ (G Fr SC Resp CErr : Type) (cc : SchnorrCollab G Fr SC Resp CErr)
        (s s' : SchnorrProtocol G Fr SC) (c c₂ : Fr) (p : PedersenCommitmentProof G Resp),
        SchnorrProtocol.gen_proof_contribution_as_struct cc s c = (.ok p, s') →
        (SchnorrProtocol.gen_proof_contribution_as_struct cc s' c₂).1
          = .error (.subProtocolNotReadyToGenerateProof s.id))
    ∧ (∀ (Fr Params PK Sig R PBBS BBSProof MemProof NonMemProof BBSErr AccErr : Type)
        (cc : BBSCollab Fr Params PK Sig R PBBS BBSProof BBSErr)
        (sp sp' : PoKBBSSigG1SubProtocol Fr Params PK PBBS) (c c₂ : Fr)
        (stp : StatementProof BBSProof MemProof NonMemProof),
        (PoKBBSSigG1SubProtocol.gen_proof_contribution cc sp c
          : Except (ProofSystemError BBSErr AccErr) _ × _) = (.ok stp, sp') →
        ((PoKBBSSigG1SubProtocol.gen_proof_contribution cc sp' c₂
          : Except (ProofSystemError BBSErr AccErr)
              (StatementProof BBSProof MemProof NonMemProof) × _)).1
          = .error (.subProtocolNotReadyToGenerateProof (cc.fmtStmt sp.statement)))
    ∧ (∀ (Fr R AV APK APar APrk MemWit P PrfT AccErr BBSErr BBSProof NonMemProof : Type)
        (cc : AccumCollab Fr R AV APK APar APrk MemWit P PrfT AccErr)
        (sp sp' : AccumulatorMembershipSubProtocol AV APK APar APrk P) (c c₂ : Fr)
        (stp : StatementProof BBSProof PrfT NonMemProof),
        (AccumulatorMembershipSubProtocol.gen_proof_contribution cc sp c
          : Except (ProofSystemError BBSErr AccErr) _ × _) = (.ok stp, sp') →
        ((AccumulatorMembershipSubProtocol.gen_proof_contribution cc sp' c₂
          : Except (ProofSystemError BBSErr AccErr)
              (StatementProof BBSProof PrfT NonMemProof) × _)).1
          = .error (.subProtocolNotReadyToGenerateProof (cc.fmtStmt sp.statement)))
    ∧ (∀ (Fr R AV APK APar APrk NonMemWit P PrfT AccErr BBSErr BBSProof MemProof : Type)
        (cc : AccumCollab Fr R AV APK APar APrk NonMemWit P PrfT AccErr)
        (sp sp' : AccumulatorNonMembershipSubProtocol AV APK APar APrk P) (c c₂ : Fr)
        (stp : StatementProof BBSProof MemProof PrfT),
        (AccumulatorNonMembershipSubProtocol.gen_proof_contribution cc sp c
          : Except (ProofSystemError BBSErr AccErr) _ × _) = (.ok stp, sp') →
        ((AccumulatorNonMembershipSubProtocol.gen_proof_contribution cc sp' c₂
          : Except (ProofSystemError BBSErr AccErr)
              (StatementProof BBSProof MemProof PrfT) × _)).1
          = .error (.subProtocolNotReadyToGenerateProof (cc.fmtStmt sp.statement))) := by
  refine ⟨?_, ?_, ?_, ?_⟩
  · intros G Fr SC Resp CErr cc s s' c c₂ p h
    unfold SchnorrProtocol.gen_proof_contribution_as_struct at h
    split at h
    · simp at h
    · split at h
      · simp at h
      · split at h
        · simp at h
        · rw [Prod.mk.injEq] at h
          obtain ⟨h1, h2⟩ := h
          subst h2
          rfl
  · intros Fr Params PK Sig R PBBS BBSProof MemProof NonMemProof BBSErr AccErr cc sp sp' c c₂ stp h
    unfold PoKBBSSigG1SubProtocol.gen_proof_contribution at h
    split at h
    · simp at h
    · split at h
      · simp at h
      · rw [Prod.mk.injEq] at h
        obtain ⟨h1, h2⟩ := h
        subst h2
        rfl
  · intros Fr R AV APK APar APrk MemWit P PrfT AccErr BBSErr BBSProof NonMemProof cc sp sp' c c₂ stp h
    unfold AccumulatorMembershipSubProtocol.gen_proof_contribution at h
    split at h
    · simp at h
    · rw [Prod.mk.injEq] at h
      obtain ⟨h1, h2⟩ := h
      subst h2
      rfl
  · intros Fr R AV APK APar APrk NonMemWit P PrfT AccErr BBSErr BBSProof MemProof cc sp sp' c c₂ stp h
    unfold AccumulatorNonMembershipSubProtocol.gen_proof_contribution at h
    split at h
    · simp at h
    · rw [Prod.mk.injEq] at h
      obtain ⟨h1, h2⟩ := h
      subst h2
      rfl

/-- C1 witness: a concrete committed instance of each sub-protocol variant
generates one proof successfully, and the second generation attempt on the
consumed instance fails with `SubProtocolNotReadyToGenerateProof`. -/
theorem gen_proof_contribution_single_use_witness :
    (SchnorrProtocol.gen_proof_contribution_as_struct unitSchnorrCollab
        { schnorrSpC with commitment_to_randomness := none } 0).1
      = .error (.subProtocolNotReadyToGenerateProof schnorrSpC.id)
    ∧ ((PoKBBSSigG1SubProtocol.gen_proof_contribution natBBSCollab
        { bbsSpOccupied with protocol := none } 0
        : Except (ProofSystemError Unit Unit) (StatementProof Unit Unit Unit) × _)).1
      = .error (.subProtocolNotReadyToGenerateProof (natBBSCollab.fmtStmt bbsSpOccupied.statement))
    ∧ ((AccumulatorMembershipSubProtocol.gen_proof_contribution unitAccumCollab
        { memSpC with protocol := none } 0
        : Except (ProofSystemError Unit Unit) (StatementProof Unit Unit Unit) × _)).1
      = .error (.subProtocolNotReadyToGenerateProof (unitAccumCollab.fmtStmt memSpC.statement))
    ∧ ((AccumulatorNonMembershipSubProtocol.gen_proof_contribution unitAccumCollab
        { nonmemSpC with protocol := none } 0
        : Except (ProofSystemError Unit Unit) (StatementProof Unit Unit Unit) × _)).1
      = .error (.subProtocolNotReadyToGenerateProof (unitAccumCollab.fmtStmt nonmemSpC.statement)) :=
  ⟨gen_proof_contribution_single_use.1 Unit Nat Unit Unit Unit unitSchnorrCollab
      schnorrSpC _ 0 0 ⟨(), ()⟩ rfl,
   gen_proof_contribution_single_use.2.1 Nat Nat Unit Unit Unit Unit Unit Unit Unit Unit Unit
      natBBSCollab bbsSpOccupied _ 0 0 (.pokBBSSignatureG1 ()) rfl,
   gen_proof_contribution_single_use.2.2.1 Nat Unit Unit Unit Unit Unit Unit Unit Unit Unit Unit
      Unit Unit unitAccumCollab memSpC _ 0 0 (.accumulatorMembership ()) rfl,
   gen_proof_contribution_single_use.2.2.2 Nat Unit Unit Unit Unit Unit Unit Unit Unit Unit Unit
      Unit Unit unitAccumCollab nonmemSpC _ 0 0 (.accumulatorNonMembership ()) rfl⟩

/-- C2 counterexample: the BBS+ signature-knowledge sub-protocol's `init`
performs no occupied-slot check — on a concrete instance whose protocol slot
is occupied, `init` returns `Ok` (overwriting the slot) instead of failing
with `SubProtocolAlreadyInitialized`. -/
theorem bbs_init_ignores_occupied_slot_cex :
    bbsSpOccupied.protocol.isSome = true
    ∧ ((PoKBBSSigG1SubProtocol.init natBBSCollab bbsSpOccupied () (fun _ => none) bbsWitC
        : Except (ProofSystemError Unit Unit) Unit × _)).1 = .ok () :=
  ⟨rfl, rfl⟩

/-- C2 (amended): for the Schnorr/Pedersen and accumulator membership and
non-membership sub-protocols, calling `init` on an instance whose protocol
slot is occupied fails with `SubProtocolAlreadyInitialized` and leaves the
state unchanged; the BBS+ sub-protocol's `init` performs no such check — its
result is independent of the slot's occupancy. -/
theorem init_already_initialized_amended :
    (∀ (G Fr SC Resp CErr : Type) (cc : SchnorrCollab G Fr SC Resp CErr)
        (s : SchnorrProtocol G Fr SC) (rng : Nat → Fr) (blindings : Nat → Option Fr)
        (w : List Fr), s.commitment_to_randomness.isSome = true →
        SchnorrProtocol.init cc s rng blindings w
          = (.error (.subProtocolAlreadyInitialized s.id), s))
    ∧ (∀ (Fr R AV APK APar APrk MemWit P PrfT AccErr BBSErr : Type)
        (cc : AccumCollab Fr R AV APK APar APrk MemWit P PrfT AccErr)
        (sp : AccumulatorMembershipSubProtocol AV APK APar APrk P) (rng : R)
        (blinding : Option Fr) (w : Witness.Membership Fr MemWit),
        sp.protocol.isSome = true →
        (AccumulatorMembershipSubProtocol.init cc sp rng blinding w
          : Except (ProofSystemError BBSErr AccErr) Unit × _)
          = (.error (.subProtocolAlreadyInitialized sp.id), sp))
    ∧ (∀ (Fr R AV APK APar APrk NonMemWit P PrfT AccErr BBSErr : Type)
        (cc : AccumCollab Fr R AV APK APar APrk NonMemWit P PrfT AccErr)
        (sp : AccumulatorNonMembershipSubProtocol AV APK APar APrk P) (rng : R)
        (blinding : Option Fr) (w : Witness.NonMembership Fr NonMemWit),
        sp.protocol.isSome = true →
        (AccumulatorNonMembershipSubProtocol.init cc sp rng blinding w
          : Except (ProofSystemError BBSErr AccErr) Unit × _)
          = (.error (.subProtocolAlreadyInitialized sp.id), sp))
    ∧ (∀ (Fr Params PK Sig R PBBS BBSProof BBSErr AccErr : Type)
        (cc : BBSCollab Fr Params PK Sig R PBBS BBSProof BBSErr)
        (sp : PoKBBSSigG1SubProtocol Fr Params PK PBBS) (rng : R)
        (blindings : Nat → Option Fr) (wit : Witness.PoKBBSSignatureG1 Fr Sig),
        ((PoKBBSSigG1SubProtocol.init cc sp rng blindings wit
          : Except (ProofSystemError BBSErr AccErr) Unit × _)).1
          = ((PoKBBSSigG1SubProtocol.init cc { sp with protocol := none } rng blindings wit
          : Except (ProofSystemError BBSErr AccErr) Unit × _)).1) := by
  refine ⟨?_, ?_, ?_, ?_⟩
  · intros G Fr SC Resp CErr cc s rng blindings w h
    simp [SchnorrProtocol.init, h]
  · intros Fr R AV APK APar APrk MemWit P PrfT AccErr BBSErr cc sp rng blinding w h
    simp [AccumulatorMembershipSubProtocol.init, h]
  · intros Fr R AV APK APar APrk NonMemWit P PrfT AccErr BBSErr cc sp rng blinding w h
    simp [AccumulatorNonMembershipSubProtocol.init, h]
  · intros Fr Params PK Sig R PBBS BBSProof BBSErr AccErr cc sp rng blindings wit
    unfold PoKBBSSigG1SubProtocol.init
    cases hb : (buildMessages sp.id wit.unrevealed_messages sp.statement.revealed_messages
        (cc.max_message_count sp.statement.params) :
        Except (ProofSystemError BBSErr AccErr) (List Fr × List Nat)) with
    | error e => simp [hb]
    | ok pr =>
      obtain ⟨messages, ris⟩ := pr
      cases hp : cc.pokInit rng wit.signature sp.statement.params messages blindings ris with
      | error e => simp [hb, hp]
      | ok protocol => simp [hb, hp]

/-- C2 amended-claim witness: on concrete occupied Schnorr and accumulator
instances, `init` fails with `SubProtocolAlreadyInitialized` and returns the
state untouched. -/
theorem init_already_initialized_amended_witness :
    SchnorrProtocol.init unitSchnorrCollab schnorrSpC (fun _ => 0) (fun _ => none) []
      = (.error (.subProtocolAlreadyInitialized schnorrSpC.id), schnorrSpC)
    ∧ (AccumulatorMembershipSubProtocol.init unitAccumCollab memSpC () none memWitC
        : Except (ProofSystemError Unit Unit) Unit × _)
      = (.error (.subProtocolAlreadyInitialized memSpC.id), memSpC)
    ∧ (AccumulatorNonMembershipSubProtocol.init unitAccumCollab nonmemSpC () none nonmemWitC
        : Except (ProofSystemError Unit Unit) Unit × _)
      = (.error (.subProtocolAlreadyInitialized nonmemSpC.id), nonmemSpC) :=
  ⟨init_already_initialized_amended.1 Unit Nat Unit Unit Unit unitSchnorrCollab schnorrSpC
      (fun _ => 0) (fun _ => none) [] rfl,
   init_already_initialized_amended.2.1 Nat Unit Unit Unit Unit Unit Unit Unit Unit Unit Unit
      unitAccumCollab memSpC () none memWitC rfl,
   init_already_initialized_amended.2.2.1 Nat Unit Unit Unit Unit Unit Unit Unit Unit Unit Unit
      unitAccumCollab nonmemSpC () none nonmemWitC rfl⟩

/-- C10: after a successful proof-generation call consumes the committed
state, a subsequent `init` on the same instance returns `Ok` rather than
`AlreadyInitialized`, re-committing it; for the accumulator sub-protocols the
consumed instance even equals the freshly constructed (`new`) one, and the
re-committed instance generates a further proof (for Schnorr, unless the
collaborator's response computation itself fails). -/
theorem reinit_after_gen_proof :
    (∀ (G Fr SC Resp CErr : Type) (cc : SchnorrCollab G Fr SC Resp CErr)
        (s s' : SchnorrProtocol G Fr SC) (c : Fr) (p : PedersenCommitmentProof G Resp)
        (rng : Nat → Fr) (blindings : Nat → Option Fr) (w₂ : List Fr),
        SchnorrProtocol.gen_proof_contribution_as_struct cc s c = (.ok p, s') →
        (SchnorrProtocol.init cc s' rng blindings w₂).1 = .ok ()
        ∧ ∀ c₂, (∃ p₂, (SchnorrProtocol.gen_proof_contribution_as_struct cc
              (SchnorrProtocol.init cc s' rng blindings w₂).2 c₂).1 = .ok p₂)
            ∨ ∃ e, (SchnorrProtocol.gen_proof_contribution_as_struct cc
              (SchnorrProtocol.init cc s' rng blindings w₂).2 c₂).1 = .error (.fromCollab e))
    ∧ (∀ (Fr R AV APK APar APrk MemWit P PrfT AccErr BBSErr BBSProof NonMemProof : Type)
        (cc : AccumCollab Fr R AV APK APar APrk MemWit P PrfT AccErr)
        (sp sp' : AccumulatorMembershipSubProtocol AV APK APar APrk P) (c : Fr)
        (stp : StatementProof BBSProof PrfT NonMemProof) (rng : R) (blinding : Option Fr)
        (w : Witness.Membership Fr MemWit),
        (AccumulatorMembershipSubProtocol.gen_proof_contribution cc sp c
          : Except (ProofSystemError BBSErr AccErr) _ × _) = (.ok stp, sp') →
        sp' = AccumulatorMembershipSubProtocol.new sp.id sp.statement
        ∧ ((AccumulatorMembershipSubProtocol.init cc sp' rng blinding w
            : Except (ProofSystemError BBSErr AccErr) Unit × _)).1 = .ok ()
        ∧ ∀ c₂, ∃ p₂ s₃,
            (AccumulatorMembershipSubProtocol.gen_proof_contribution cc
              ((AccumulatorMembershipSubProtocol.init cc sp' rng blinding w
                : Except (ProofSystemError BBSErr AccErr) Unit × _)).2 c₂
              : Except (ProofSystemError BBSErr AccErr)
                  (StatementProof BBSProof PrfT NonMemProof) × _) = (.ok p₂, s₃))
    ∧ (∀ (Fr R AV APK APar APrk NonMemWit P PrfT AccErr BBSErr BBSProof MemProof : Type)
        (cc : AccumCollab Fr R AV APK APar APrk NonMemWit P PrfT AccErr)
        (sp sp' : AccumulatorNonMembershipSubProtocol AV APK APar APrk P) (c : Fr)
        (stp : StatementProof BBSProof MemProof PrfT) (rng : R) (blinding : Option Fr)
        (w : Witness.NonMembership Fr NonMemWit),
        (AccumulatorNonMembershipSubProtocol.gen_proof_contribution cc sp c
          : Except (ProofSystemError BBSErr AccErr) _ × _) = (.ok stp, sp') →
        sp' = AccumulatorNonMembershipSubProtocol.new sp.id sp.statement
        ∧ ((AccumulatorNonMembershipSubProtocol.init cc sp' rng blinding w
            : Except (ProofSystemError BBSErr AccErr) Unit × _)).1 = .ok ()
        ∧ ∀ c₂, ∃ p₂ s₃,
            (AccumulatorNonMembershipSubProtocol.gen_proof_contribution cc
              ((AccumulatorNonMembershipSubProtocol.init cc sp' rng blinding w
                : Except (ProofSystemError BBSErr AccErr) Unit × _)).2 c₂
              : Except (ProofSystemError BBSErr AccErr)
                  (StatementProof BBSProof MemProof PrfT) × _) = (.ok p₂, s₃)) := by
  refine ⟨?_, ?_, ?_⟩
  · intros G Fr SC Resp CErr cc s s' c p rng blindings w₂ h
    unfold SchnorrProtocol.gen_proof_contribution_as_struct at h
    split at h
    · simp at h
    · split at h
      · simp at h
      · split at h
        · simp at h
        · rw [Prod.mk.injEq] at h
          obtain ⟨h1, h2⟩ := h
          subst h2
          refine ⟨rfl, fun c₂ => ?_⟩
          cases hresp : cc.response
              (cc.scNew s.commitment_key
                ((List.range w₂.length).map fun i => (blindings i).getD (rng i))) w₂ c₂ with
          | error e =>
            exact .inr ⟨e, by
              simp [SchnorrProtocol.init, SchnorrProtocol.gen_proof_contribution_as_struct, hresp]⟩
          | ok r₂ =>
            exact .inl ⟨⟨cc.scT (cc.scNew s.commitment_key
                ((List.range w₂.length).map fun i => (blindings i).getD (rng i))), r₂⟩, by
              simp [SchnorrProtocol.init, SchnorrProtocol.gen_proof_contribution_as_struct, hresp]⟩
  · intros Fr R AV APK APar APrk MemWit P PrfT AccErr BBSErr BBSProof NonMemProof cc sp sp' c
      stp rng blinding w h
    unfold AccumulatorMembershipSubProtocol.gen_proof_contribution at h
    split at h
    · simp at h
    · rw [Prod.mk.injEq] at h
      obtain ⟨h1, h2⟩ := h
      subst h2
      exact ⟨rfl, rfl, fun c₂ => ⟨_, _, rfl⟩⟩
  · intros Fr R AV APK APar APrk NonMemWit P PrfT AccErr BBSErr BBSProof MemProof cc sp sp' c
      stp rng blinding w h
    unfold AccumulatorNonMembershipSubProtocol.gen_proof_contribution at h
    split at h
    · simp at h
    · rw [Prod.mk.injEq] at h
      obtain ⟨h1, h2⟩ := h
      subst h2
      exact ⟨rfl, rfl, fun c₂ => ⟨_, _, rfl⟩⟩

/-- C10 witness: on concrete instances, the state left by a successful proof
generation accepts `init` again (returning `Ok`), and for the accumulator
variants it equals the freshly constructed instance. -/
theorem reinit_after_gen_proof_witness :
    (SchnorrProtocol.init unitSchnorrCollab
        { schnorrSpC with commitment_to_randomness := none } (fun _ => 0) (fun _ => none) []).1
      = .ok ()
    ∧ (({ memSpC with protocol := none } : AccumulatorMembershipSubProtocol Unit Unit Unit Unit Unit)
        = AccumulatorMembershipSubProtocol.new memSpC.id memSpC.statement)
    ∧ ((AccumulatorMembershipSubProtocol.init unitAccumCollab
          { memSpC with protocol := none } () none memWitC
        : Except (ProofSystemError Unit Unit) Unit × _)).1 = .ok ()
    ∧ (({ nonmemSpC with protocol := none }
          : AccumulatorNonMembershipSubProtocol Unit Unit Unit Unit Unit)
        = AccumulatorNonMembershipSubProtocol.new nonmemSpC.id nonmemSpC.statement)
    ∧ ((AccumulatorNonMembershipSubProtocol.init unitAccumCollab
          { nonmemSpC with protocol := none } () none nonmemWitC
        : Except (ProofSystemError Unit Unit) Unit × _)).1 = .ok () :=
  ⟨(reinit_after_gen_proof.1 Unit Nat Unit Unit Unit unitSchnorrCollab schnorrSpC _ 0 ⟨(), ()⟩
      (fun _ => 0) (fun _ => none) [] rfl).1,
   (reinit_after_gen_proof.2.1 Nat Unit Unit Unit Unit Unit Unit Unit Unit Unit Unit Unit Unit
      unitAccumCollab memSpC _ 0 (.accumulatorMembership ()) () none memWitC rfl).1,
   (reinit_after_gen_proof.2.1 Nat Unit Unit Unit Unit Unit Unit Unit Unit Unit Unit Unit Unit
      unitAccumCollab memSpC _ 0 (.accumulatorMembership ()) () none memWitC rfl).2.1,
   (reinit_after_gen_proof.2.2 Nat Unit Unit Unit Unit Unit Unit Unit Unit Unit Unit Unit Unit
      unitAccumCollab nonmemSpC _ 0 (.accumulatorNonMembership ()) () none nonmemWitC rfl).1,
   (reinit_after_gen_proof.2.2 Nat Unit Unit Unit Unit Unit Unit Unit Unit Unit Unit Unit Unit
      unitAccumCollab nonmemSpC _ 0 (.accumulatorNonMembership ()) () none nonmemWitC rfl).2.1⟩

/-! ## Supporting lemmas for the message-assembly loop -/

/-- Unfolding step of the assembly loop at zero remaining slots. -/
theorem buildMessagesAux_zero {Fr BBSErr AccErr : Type} (id : Nat)
    (unrev rev : Nat → Option Fr) (start : Nat) :
    (buildMessagesAux id unrev rev start 0
      : Except (ProofSystemError BBSErr AccErr) (List Fr × List Nat)) = .ok ([], []) :=
  rfl

/-- Unfolding step of the assembly loop at a successor count. -/
theorem buildMessagesAux_succ {Fr BBSErr AccErr : Type} (id : Nat)
    (unrev rev : Nat → Option Fr) (start m : Nat) :
    (buildMessagesAux id unrev rev start (m + 1)
      : Except (ProofSystemError BBSErr AccErr) (List Fr × List Nat)) =
      match unrev start with
      | some mv =>
        match buildMessagesAux id unrev rev (start + 1) m with
        | .error e => .error e
        | .ok (ms, ris) => .ok (mv :: ms, ris)
      | none =>
        match rev start with
        | some mv =>
          match buildMessagesAux id unrev rev (start + 1) m with
          | .error e => .error e
          | .ok (ms, ris) => .ok (mv :: ms, start :: ris)
        | none => .error (.bbsPlusProtocolMessageAbsent id start) :=
  rfl

/-- When every slot in the window is covered by the witness or the statement,
the assembly loop succeeds, returns a message per slot (the witness value
taking precedence), and registers as revealed only slots the witness lacks. -/
theorem buildMessagesAux_spec {Fr BBSErr AccErr : Type} (id : Nat)
    (unrev rev : Nat → Option Fr) :
    ∀ (n start : Nat),
      (∀ j, j < n → (unrev (start + j)).isSome = true ∨ (rev (start + j)).isSome = true) →
      ∃ ms ris,
        (buildMessagesAux id unrev rev start n
          : Except (ProofSystemError BBSErr AccErr) (List Fr × List Nat)) = .ok (ms, ris)
        ∧ ms.length = n
        ∧ (∀ j v, j < n → unrev (start + j) = some v → ms[j]? = some v)
        ∧ (∀ j, j ∈ ris → unrev j = none) := by
  intro n
  induction n with
  | zero =>
    intro start _
    exact ⟨[], [], buildMessagesAux_zero id unrev rev start, rfl,
      fun j v hj => absurd hj (Nat.not_lt_zero j), fun j hj => absurd hj (List.not_mem_nil j)⟩
  | succ m ih =>
    intro start hcov
    have hshift : ∀ j, j < m →
        (unrev (start + 1 + j)).isSome = true ∨ (rev (start + 1 + j)).isSome = true := by
      intro j hj
      have := hcov (j + 1) (by omega)
      rwa [show start + (j + 1) = start + 1 + j by omega] at this
    obtain ⟨ms, ris, hbm, hlen, hget, hris⟩ := ih (start + 1) hshift
    rcases hu : unrev start with _ | u
    · rcases hr : rev start with _ | r
      · rcases hcov 0 (Nat.succ_pos m) with hc | hc
        · rw [Nat.add_zero, hu] at hc; simp at hc
        · rw [Nat.add_zero, hr] at hc; simp at hc
      · refine ⟨r :: ms, start :: ris, ?_, by simp [hlen], ?_, ?_⟩
        · simp [buildMessagesAux_succ, hu, hr, hbm]
        · intro j v hj hv
          cases j with
          | zero => rw [Nat.add_zero, hu] at hv; exact absurd hv (by simp)
          | succ k =>
            rw [show start + (k + 1) = start + 1 + k by omega] at hv
            simpa using hget k v (by omega) hv
        · intro j hj
          rcases List.mem_cons.mp hj with h | h
          · subst h; exact hu
          · exact hris j h
    · refine ⟨u :: ms, ris, ?_, by simp [hlen], ?_, hris⟩
      · simp [buildMessagesAux_succ, hu, hbm]
      · intro j v hj hv
        cases j with
        | zero =>
          rw [Nat.add_zero, hu] at hv
          cases hv
          simp
        | succ k =>
          rw [show start + (k + 1) = start + 1 + k by omega] at hv
          simpa using hget k v (by omega) hv

/-- When slot `start + j` is the first slot in the window covered by neither
the witness nor the statement, the assembly loop aborts with
`BBSPlusProtocolMessageAbsent` at exactly that index. -/
theorem buildMessagesAux_err {Fr BBSErr AccErr : Type} (id : Nat)
    (unrev rev : Nat → Option Fr) :
    ∀ (j n start : Nat), j < n →
      unrev (start + j) = none → rev (start + j) = none →
      (∀ k, k < j → (unrev (start + k)).isSome = true ∨ (rev (start + k)).isSome = true) →
      (buildMessagesAux id unrev rev start n
        : Except (ProofSystemError BBSErr AccErr) (List Fr × List Nat))
        = .error (.bbsPlusProtocolMessageAbsent id (start + j)) := by
  intro j
  induction j with
  | zero =>
    intro n start hn hu hr _
    obtain ⟨m, rfl⟩ : ∃ m, n = m + 1 := ⟨n - 1, by omega⟩
    rw [Nat.add_zero] at hu hr
    simp [buildMessagesAux_succ, hu, hr]
  | succ k ih =>
    intro n start hn hu hr hcov
    obtain ⟨m, rfl⟩ : ∃ m, n = m + 1 := ⟨n - 1, by omega⟩
    have harg : start + (k + 1) = start + 1 + k := by omega
    rw [harg] at hu hr
    have htail := ih m (start + 1) (by omega) hu hr (fun k2 hk2 => by
      have := hcov (k2 + 1) (by omega)
      rwa [show start + (k2 + 1) = start + 1 + k2 by omega] at this)
    have h0 := hcov 0 (Nat.succ_pos k)
    rw [Nat.add_zero] at h0
    rcases hu0 : unrev start with _ | u
    · rcases hr0 : rev start with _ | r
      · rw [hu0] at h0; rw [hr0] at h0; simp at h0
      · simp [buildMessagesAux_succ, hu0, hr0, htail, harg]
    · simp [buildMessagesAux_succ, hu0, htail, harg]

/-- C5: in the BBS+ sub-protocol's `init`, every message slot in
`[0, max_message_count)` must be supplied by the witness or revealed by the
statement: if some slot has neither (and all earlier slots are covered),
`init` fails with `BBSPlusProtocolMessageAbsent` carrying the statement id
and that slot index; and if every slot is covered, the slot-assembly loop
succeeds and builds a full-length message vector. -/
theorem bbs_message_slot_coverage :
    (∀ (Fr Params PK Sig R PBBS BBSProof BBSErr AccErr : Type)
        (cc : BBSCollab Fr Params PK Sig R PBBS BBSProof BBSErr)
        (sp : PoKBBSSigG1SubProtocol Fr Params PK PBBS) (rng : R)
        (blindings : Nat → Option Fr) (wit : Witness.PoKBBSSignatureG1 Fr Sig) (j : Nat),
        j < cc.max_message_count sp.statement.params →
        wit.unrevealed_messages j = none →
        sp.statement.revealed_messages j = none →
        (∀ k, k < j → (wit.unrevealed_messages k).isSome = true
          ∨ (sp.statement.revealed_messages k).isSome = true) →
        ((PoKBBSSigG1SubProtocol.init cc sp rng blindings wit
          : Except (ProofSystemError BBSErr AccErr) Unit × _)).1
          = .error (.bbsPlusProtocolMessageAbsent sp.id j))
    ∧ (∀ (Fr Params PK Sig R PBBS BBSProof BBSErr AccErr : Type)
        (cc : BBSCollab Fr Params PK Sig R PBBS BBSProof BBSErr)
        (sp : PoKBBSSigG1SubProtocol Fr Params PK PBBS)
        (wit : Witness.PoKBBSSignatureG1 Fr Sig),
        (∀ i, i < cc.max_message_count sp.statement.params →
          (wit.unrevealed_messages i).isSome = true
          ∨ (sp.statement.revealed_messages i).isSome = true) →
        ∃ ms ris,
          (buildMessages sp.id wit.unrevealed_messages sp.statement.revealed_messages
            (cc.max_message_count sp.statement.params)
            : Except (ProofSystemError BBSErr AccErr) (List Fr × List Nat)) = .ok (ms, ris)
          ∧ ms.length = cc.max_message_count sp.statement.params) := by
  constructor
  · intros Fr Params PK Sig R PBBS BBSProof BBSErr AccErr cc sp rng blindings wit j hj hu hr hcov
    have herr := @buildMessagesAux_err Fr BBSErr AccErr sp.id
      wit.unrevealed_messages sp.statement.revealed_messages j
      (cc.max_message_count sp.statement.params) 0 hj
      (by rwa [Nat.zero_add]) (by rwa [Nat.zero_add])
      (fun k hk => by rw [Nat.zero_add]; exact hcov k hk)
    rw [Nat.zero_add] at herr
    simp [PoKBBSSigG1SubProtocol.init, buildMessages, herr]
  · intros Fr Params PK Sig R PBBS BBSProof BBSErr AccErr cc sp wit hcov
    obtain ⟨ms, ris, hbm, hlen, _, _⟩ := @buildMessagesAux_spec Fr BBSErr AccErr
      sp.id wit.unrevealed_messages sp.statement.revealed_messages
      (cc.max_message_count sp.statement.params) 0
      (fun i hi => by rw [Nat.zero_add]; exact hcov i hi)
    exact ⟨ms, ris, hbm, hlen⟩

/-- C5 witness: with three message slots, a witness supplying only slot 0 and
a statement revealing only slot 1 make `init` fail with
`BBSPlusProtocolMessageAbsent(5, 2)`; with the fully covering witness the
loop succeeds with a vector of length 3. -/
theorem bbs_message_slot_coverage_witness :
    ((PoKBBSSigG1SubProtocol.init natBBSCollab bbsSpC () (fun _ => none) bbsWitMissing
        : Except (ProofSystemError Unit Unit) Unit × _)).1
      = .error (.bbsPlusProtocolMessageAbsent bbsSpC.id 2)
    ∧ ∃ ms ris,
        (buildMessages bbsSpC.id bbsWitC.unrevealed_messages
          bbsSpC.statement.revealed_messages
          (natBBSCollab.max_message_count bbsSpC.statement.params)
          : Except (ProofSystemError Unit Unit) (List Nat × List Nat)) = .ok (ms, ris)
        ∧ ms.length = natBBSCollab.max_message_count bbsSpC.statement.params :=
  ⟨bbs_message_slot_coverage.1 Nat Nat Unit Unit Unit Unit Unit Unit Unit natBBSCollab bbsSpC
      () (fun _ => none) bbsWitMissing 2 (by decide) (by decide) (by decide)
      (by decide),
   bbs_message_slot_coverage.2 Nat Nat Unit Unit Unit Unit Unit Unit Unit natBBSCollab bbsSpC
      bbsWitC (by decide)⟩

/-- C9: when a message index appears both in the witness's unrevealed
messages and in the statement's revealed messages, the assembly loop does not
fail: the witness's value fills that slot, the index is not added to the
revealed-indices set passed to the collaborator, and `init` can only fail
further in the collaborator's own `init`. -/
theorem bbs_witness_precedence_on_overlap :
    ∀ (Fr Params PK Sig R PBBS BBSProof BBSErr AccErr : Type)
      (cc : BBSCollab Fr Params PK Sig R PBBS BBSProof BBSErr)
      (sp : PoKBBSSigG1SubProtocol Fr Params PK PBBS) (rng : R)
      (blindings : Nat → Option Fr) (wit : Witness.PoKBBSSignatureG1 Fr Sig)
      (j : Nat) (v w : Fr),
      (∀ i, i < cc.max_message_count sp.statement.params →
        (wit.unrevealed_messages i).isSome = true
        ∨ (sp.statement.revealed_messages i).isSome = true) →
      j < cc.max_message_count sp.statement.params →
      wit.unrevealed_messages j = some v →
      sp.statement.revealed_messages j = some w →
      ∃ ms ris,
        (buildMessages sp.id wit.unrevealed_messages sp.statement.revealed_messages
          (cc.max_message_count sp.statement.params)
          : Except (ProofSystemError BBSErr AccErr) (List Fr × List Nat)) = .ok (ms, ris)
        ∧ ms[j]? = some v
        ∧ j ∉ ris
        ∧ (((PoKBBSSigG1SubProtocol.init cc sp rng blindings wit
            : Except (ProofSystemError BBSErr AccErr) Unit × _)).1 = .ok ()
          ∨ ∃ e, ((PoKBBSSigG1SubProtocol.init cc sp rng blindings wit
            : Except (ProofSystemError BBSErr AccErr) Unit × _)).1
              = .error (.fromBBSPlus e)) := by
  intros Fr Params PK Sig R PBBS BBSProof BBSErr AccErr cc sp rng blindings wit j v w
    hcov hj hu hr
  obtain ⟨ms, ris, hbm, hlen, hget, hris⟩ := @buildMessagesAux_spec Fr BBSErr AccErr
    sp.id wit.unrevealed_messages sp.statement.revealed_messages
    (cc.max_message_count sp.statement.params) 0
    (fun i hi => by rw [Nat.zero_add]; exact hcov i hi)
  refine ⟨ms, ris, hbm, hget j v hj (by rwa [Nat.zero_add]), ?_, ?_⟩
  · intro hmem
    rw [hris j hmem] at hu
    exact Option.noConfusion hu
  · cases hp : cc.pokInit rng wit.signature sp.statement.params ms blindings ris with
    | error e =>
      refine .inr ⟨e, ?_⟩
      simp [PoKBBSSigG1SubProtocol.init, buildMessages, hbm, hp]
    | ok protocol =>
      refine .inl ?_
      simp [PoKBBSSigG1SubProtocol.init, buildMessages, hbm, hp]

/-- C9 witness: slot 1 is both supplied by the witness (value 11) and
revealed by the statement (value 99); the loop succeeds, slot 1 carries the
witness value 11, and index 1 is not in the revealed set. -/
theorem bbs_witness_precedence_on_overlap_witness :
    ∃ ms ris,
      (buildMessages bbsSpC.id bbsWitC.unrevealed_messages
        bbsSpC.statement.revealed_messages
        (natBBSCollab.max_message_count bbsSpC.statement.params)
        : Except (ProofSystemError Unit Unit) (List Nat × List Nat)) = .ok (ms, ris)
      ∧ ms[1]? = some 11
      ∧ 1 ∉ ris
      ∧ (((PoKBBSSigG1SubProtocol.init natBBSCollab bbsSpC () (fun _ => none) bbsWitC
          : Except (ProofSystemError Unit Unit) Unit × _)).1 = .ok ()
        ∨ ∃ e, ((PoKBBSSigG1SubProtocol.init natBBSCollab bbsSpC () (fun _ => none) bbsWitC
          : Except (ProofSystemError Unit Unit) Unit × _)).1 = .error (.fromBBSPlus e)) :=
  bbs_witness_precedence_on_overlap Nat Nat Unit Unit Unit Unit Unit Unit Unit natBBSCollab
    bbsSpC () (fun _ => none) bbsWitC 1 11 99 (by decide) (by decide) (by decide) (by decide)

/-! ## Supporting lemmas for the orchestrator model -/

namespace SpecModel

/-- Indexing a mapped range. -/
theorem getElem?_range_map {α : Type} (f : Nat → α) (n i : Nat) :
    ((List.range n).map f)[i]? = if i < n then some (f i) else none := by
  rcases Nat.lt_or_ge i n with h | h
  · rw [List.getElem?_map, List.getElem?_range h, if_pos h]
    rfl
  · rw [if_neg (Nat.not_lt.mpr h)]
    apply List.getElem?_eq_none
    simpa using h

/-- Indexing a zip of two lists at a position both lists populate. -/
theorem getElem?_zip_eq_some {α β : Type} {as : List α} {bs : List β} {i : Nat}
    {a : α} {b : β} (ha : as[i]? = some a) (hb : bs[i]? = some b) :
    (as.zip bs)[i]? = some (a, b) := by
  have hz : (as.zip bs)[i]? = (List.zipWith Prod.mk as bs)[i]? := rfl
  rw [hz, List.getElem?_zipWith, ha, hb]

/-- Multi-scalar combination over cons cells. -/
theorem msm_cons {Fr G : Type} [AddCommMonoid G] [SMul Fr G] (a : Fr) (s : List Fr)
    (b : G) (g : List G) : msm (a :: s) (b :: g) = a • b + msm s g := by
  simp [msm]

/-- Multi-scalar combination with no bases is zero. -/
theorem msm_nil_bases {Fr G : Type} [AddCommMonoid G] [SMul Fr G] (s : List Fr) :
    msm s ([] : List G) = 0 := by
  simp [msm]

/-- The verification identity behind sigma-protocol completeness: responses
`rᵢ + c·wᵢ` recombine as the commitment to randomness plus `c` times the
witness combination. -/
theorem msm_lincomb {Fr G : Type} [Semiring Fr] [AddCommMonoid G] [Module Fr G] (c : Fr) :
    ∀ (bl w : List Fr) (g : List G), bl.length = w.length →
      msm (List.zipWith (fun r x => r + c * x) bl w) g = msm bl g + c • msm w g := by
  intro bl
  induction bl with
  | nil =>
    intro w g hw
    have : w = [] := by simpa using hw.symm
    subst this
    simp [msm]
  | cons r bl ih =>
    intro w g hw
    cases w with
    | nil => simp at hw
    | cons x w =>
      cases g with
      | nil => simp [msm_nil_bases, smul_zero]
      | cons gg g =>
        have hlen : bl.length = w.length := by simpa using hw
        rw [List.zipWith_cons_cons, msm_cons, msm_cons, msm_cons, ih w g hlen,
          add_smul, mul_smul, smul_add]
        abel

/-- When every pair in the list passes the statement check, no failing index
is reported, whatever the running offset. -/
theorem firstFailIdx_eq_none {Fr G : Type} [AddCommMonoid G] [SMul Fr G] [DecidableEq G]
    (c : Fr) :
    ∀ (l : List (SpecStatement Fr G × SpecStatementProof Fr G)) (k : Nat),
      (∀ p ∈ l, checkStatement c p.1 p.2 = true) → firstFailIdx c l k = none := by
  intro l
  induction l with
  | nil => intro k _; rfl
  | cons hd tl ih =>
    intro k hall
    obtain ⟨st, p⟩ := hd
    unfold firstFailIdx
    rw [if_pos (hall (st, p) (List.mem_cons_self _ _))]
    exact ih (k + 1) fun q hq => hall q (List.mem_cons_of_mem _ hq)

/-- With pairwise-disjoint classes, looking up any member of a class yields
that class's head as representative. -/
theorem classLookup_eq_head (x : Nat × Nat) :
    ∀ (meta : List (List (Nat × Nat))) (cls : List (Nat × Nat)),
      disjointClasses meta = true → cls ∈ meta → x ∈ cls →
      classLookup meta x = cls.head? := by
  intro meta
  induction meta with
  | nil => intro cls _ h; exact absurd h (List.not_mem_nil cls)
  | cons c rest ih =>
    intro cls hdisj hmem hx
    unfold disjointClasses at hdisj
    rw [Bool.and_eq_true] at hdisj
    obtain ⟨hsplit1, hdisj'⟩ := hdisj
    rcases List.mem_cons.mp hmem with rfl | hmem'
    · unfold classLookup
      rw [if_pos (List.elem_eq_true_of_mem hx)]
    · have hnotc : c.contains x = false := by
        rcases hcx : c.contains x with _ | _
        · rfl
        · have hxc : x ∈ c := List.mem_of_elem_eq_true hcx
          have h1 := List.all_eq_true.mp hsplit1 x hxc
          have h2 := List.all_eq_true.mp h1 cls hmem'
          have h3 : cls.contains x = true := List.elem_eq_true_of_mem hx
          rw [h3] at h2
          exact absurd h2 (by simp)
      unfold classLookup
      rw [hnotc]
      simpa using ih cls hdisj' hmem' hx

/-- Within one class of a disjoint collection, the shared blinding is the
randomness drawn at the class head: any two members get the same blinding. -/
theorem blindingOf_eq_of_same_class {Fr : Type} (meta : List (List (Nat × Nat)))
    (rand : Nat → Nat → Fr) (cls : List (Nat × Nat)) (a b : Nat × Nat)
    (hdisj : disjointClasses meta = true) (hmem : cls ∈ meta)
    (ha : a ∈ cls) (hb : b ∈ cls) :
    blindingOf meta rand a = blindingOf meta rand b := by
  cases cls with
  | nil => exact absurd ha (List.not_mem_nil a)
  | cons hd tl =>
    unfold blindingOf
    rw [classLookup_eq_head a meta (hd :: tl) hdisj hmem ha,
      classLookup_eq_head b meta (hd :: tl) hdisj hmem hb]
    rfl

/-- Unpacking `satisfiesStatements`: the witness list has one vector per
statement, of the statement's arity, opening its commitment. -/
theorem satisfies_at {Fr G : Type} [AddCommMonoid G] [SMul Fr G] [DecidableEq G]
    {spec : SpecProofSpec Fr G} {wits : List (List Fr)}
    (hsat : satisfiesStatements spec wits = true) :
    wits.length = spec.statements.length
    ∧ ∀ (i : Nat) (st : SpecStatement Fr G), spec.statements[i]? = some st →
      ∃ w, wits[i]? = some w ∧ w.length = st.bases.length ∧ msm w st.bases = st.commitment := by
  unfold satisfiesStatements at hsat
  rw [Bool.and_eq_true] at hsat
  obtain ⟨hlen, hall⟩ := hsat
  rw [decide_eq_true_eq] at hlen
  refine ⟨hlen, fun i st hst => ?_⟩
  have hi : i < spec.statements.length := (List.getElem?_eq_some.mp hst).fst
  have hiw : i < wits.length := by omega
  have hw : wits[i]? = some wits[i] := (List.getElem?_eq_some_getElem_iff _ _ hiw).mpr trivial
  have hz := getElem?_zip_eq_some hst hw
  have hmem : (st, wits[i]) ∈ spec.statements.zip wits := List.getElem?_mem hz
  have hp := List.all_eq_true.mp hall _ hmem
  rw [Bool.and_eq_true, decide_eq_true_eq, decide_eq_true_eq] at hp
  exact ⟨wits[i], hw, hp.1, hp.2⟩

/-- Unpacking `satisfiesEqualities`: any two refs of one class carry the same
(present) witness value. -/
theorem satisfiesEqualities_at {Fr : Type} [DecidableEq Fr] {wits : List (List Fr)}
    {meta : List (List (Nat × Nat))} (heq : satisfiesEqualities wits meta = true)
    {r : Nat × Nat} {rest : List (Nat × Nat)} (hcls : r :: rest ∈ meta) :
    ∃ v, ∀ x ∈ r :: rest, witAt wits x = some v := by
  unfold satisfiesEqualities at heq
  have hc := List.all_eq_true.mp heq (r :: rest) hcls
  simp only at hc
  cases hv : witAt wits r with
  | none => rw [hv] at hc; simp at hc
  | some v =>
    rw [hv] at hc
    simp only at hc
    refine ⟨v, fun x hx => ?_⟩
    rcases List.mem_cons.mp hx with rfl | hx'
    · exact hv
    · exact decide_eq_true_eq.mp (List.all_eq_true.mp hc x hx')

/-- The response scalar the generated proof places at a valid witness ref:
the (possibly shared) blinding plus challenge times the witness value. -/
theorem respAt_prove {Fr G : Type} [Semiring Fr] [AddCommMonoid G] [Module Fr G]
    (spec : SpecProofSpec Fr G) (wits : List (List Fr)) (rand : Nat → Nat → Fr)
    (c : Fr) {i j : Nat} {w : List Fr} {v : Fr}
    (hn : wits.length = spec.statements.length)
    (hw : wits[i]? = some w) (hv : w[j]? = some v) :
    respAt (⟨(List.range spec.statements.length).map fun k =>
        ⟨tAt spec wits rand k, respsAt spec wits rand c k⟩⟩ : SpecProof Fr G) (i, j)
      = some (blindingOf spec.meta_statements rand (i, j) + c * v) := by
  have hi : i < wits.length := (List.getElem?_eq_some.mp hw).fst
  have hi' : i < spec.statements.length := by omega
  have hj : j < w.length := (List.getElem?_eq_some.mp hv).fst
  have hwitsAt : witsAt wits i = w := by unfold witsAt; rw [hw]; rfl
  unfold respAt
  rw [getElem?_range_map, if_pos hi']
  show (respsAt spec wits rand c i)[j]? = _
  unfold respsAt blindsAt
  rw [hwitsAt, List.getElem?_zipWith, getElem?_range_map, if_pos hj, hv]

/-- With genuinely satisfying witnesses, every per-statement verification
equation of the generated proof holds, so no failing statement id is found. -/
theorem firstFailIdx_prove_none {Fr G : Type} [Semiring Fr] [AddCommMonoid G]
    [Module Fr G] [DecidableEq Fr] [DecidableEq G]
    (hash : List G → Fr) (rand : Nat → Nat → Fr) (spec : SpecProofSpec Fr G)
    (wits : List (List Fr)) (hsat : satisfiesStatements spec wits = true) :
    firstFailIdx (challengeOf hash spec (tList spec wits rand))
      (spec.statements.zip ((List.range spec.statements.length).map fun i =>
        ⟨tAt spec wits rand i,
          respsAt spec wits rand (challengeOf hash spec (tList spec wits rand)) i⟩)) 0
      = none := by
  obtain ⟨hn, hstmts⟩ := satisfies_at hsat
  apply firstFailIdx_eq_none
  intro q hq
  obtain ⟨k, hk⟩ := List.mem_iff_getElem?.mp hq
  have hkz : (List.zipWith Prod.mk spec.statements ((List.range spec.statements.length).map
      fun i => (⟨tAt spec wits rand i,
        respsAt spec wits rand (challengeOf hash spec (tList spec wits rand)) i⟩
        : SpecStatementProof Fr G)))[k]? = some q := hk
  rw [List.getElem?_zipWith] at hkz
  cases hst : spec.statements[k]? with
  | none => rw [hst] at hkz; simp at hkz
  | some st =>
    rw [hst] at hkz
    have hkn : k < spec.statements.length := (List.getElem?_eq_some.mp hst).fst
    rw [getElem?_range_map, if_pos hkn] at hkz
    simp only [Option.map_some] at hkz
    obtain rfl : (st, (⟨tAt spec wits rand k,
        respsAt spec wits rand (challengeOf hash spec (tList spec wits rand)) k⟩
        : SpecStatementProof Fr G)) = q := Option.some.inj hkz
    obtain ⟨w, hw, hwlen, hwmsm⟩ := hstmts k st hst
    have hwitsAt : witsAt wits k = w := by unfold witsAt; rw [hw]; rfl
    have hbasesAt : basesAt spec k = st.bases := by unfold basesAt; rw [hst]
    unfold checkStatement
    rw [Bool.and_eq_true]
    constructor
    · rw [decide_eq_true_eq]
      unfold respsAt blindsAt
      rw [hwitsAt]
      simp [hwlen]
    · rw [decide_eq_true_eq]
      unfold respsAt
      rw [msm_lincomb _ _ _ _ (by
        unfold blindsAt
        rw [hwitsAt, List.length_map, List.length_range])]
      unfold tAt
      rw [hbasesAt, hwitsAt, hwmsm]

/-- C3: for every ProofSpec that validates and whose witnesses genuinely
satisfy every statement and every witness-equality constraint, `verify`
applied to the proof produced by `prove` returns `Ok` — in particular this
covers the repository test's scenario of a five-message signature statement
equality-linked to an in-range bound-check statement. -/
theorem spec_prove_then_verify_ok {Fr G : Type} [Semiring Fr] [AddCommMonoid G]
    [Module Fr G] [DecidableEq Fr] [DecidableEq G]
    (hash : List G → Fr) (rand : Nat → Nat → Fr) (spec : SpecProofSpec Fr G)
    (wits : List (List Fr))
    (hval : spec.validate = true)
    (hsat : satisfiesStatements spec wits = true)
    (heq : satisfiesEqualities wits spec.meta_statements = true) :
    (prove hash rand spec wits).bind (verify hash spec) = Except.ok () := by
  obtain ⟨hn, hstmts⟩ := satisfies_at hsat
  have hvalsplit := hval
  unfold SpecProofSpec.validate at hvalsplit
  rw [Bool.and_eq_true] at hvalsplit
  obtain ⟨hclasses, hdisj⟩ := hvalsplit
  have hproof : prove hash rand spec wits
      = .ok ⟨(List.range spec.statements.length).map fun i =>
          ⟨tAt spec wits rand i,
            respsAt spec wits rand (challengeOf hash spec (tList spec wits rand)) i⟩⟩ := by
    unfold prove
    rw [if_pos hval]
  rw [hproof]
  show verify hash spec _ = Except.ok ()
  unfold verify
  rw [if_pos hval]
  rw [if_pos (by simp)]
  have hmapt : ((List.range spec.statements.length).map fun i =>
      (⟨tAt spec wits rand i,
        respsAt spec wits rand (challengeOf hash spec (tList spec wits rand)) i⟩
        : SpecStatementProof Fr G)).map SpecStatementProof.t
      = tList spec wits rand := by
    rw [List.map_map]
    rfl
  simp only [hmapt]
  rw [firstFailIdx_prove_none hash rand spec wits hsat]
  have hcls : spec.meta_statements.all (classOk
      ⟨(List.range spec.statements.length).map fun i =>
        ⟨tAt spec wits rand i,
          respsAt spec wits rand (challengeOf hash spec (tList spec wits rand)) i⟩⟩)
      = true := by
    rw [List.all_eq_true]
    intro cls hcls
    have hclsok := List.all_eq_true.mp hclasses cls hcls
    rw [Bool.and_eq_true] at hclsok
    obtain ⟨hsize, hrefs⟩ := hclsok
    cases cls with
    | nil => rfl
    | cons r rest =>
      obtain ⟨v, hv⟩ := satisfiesEqualities_at heq hcls
      have hrAt : respAt (⟨(List.range spec.statements.length).map fun i =>
          ⟨tAt spec wits rand i,
            respsAt spec wits rand (challengeOf hash spec (tList spec wits rand)) i⟩⟩
          : SpecProof Fr G) r = some (blindingOf spec.meta_statements rand r
          + challengeOf hash spec (tList spec wits rand) * v) := by
        have hvr := hv r (List.mem_cons_self _ _)
        unfold witAt at hvr
        cases hwr : wits[r.1]? with
        | none => rw [hwr] at hvr; simp at hvr
        | some w =>
          rw [hwr] at hvr
          exact respAt_prove spec wits rand
            (challengeOf hash spec (tList spec wits rand)) hn hwr hvr
      simp only [classOk, hrAt]
      rw [List.all_eq_true]
      intro r2 hr2
      rw [decide_eq_true_eq]
      have hr2At : respAt (⟨(List.range spec.statements.length).map fun i =>
          ⟨tAt spec wits rand i,
            respsAt spec wits rand (challengeOf hash spec (tList spec wits rand)) i⟩⟩
          : SpecProof Fr G) r2 = some (blindingOf spec.meta_statements rand r2
          + challengeOf hash spec (tList spec wits rand) * v) := by
        have hvr2 := hv r2 (List.mem_cons_of_mem _ hr2)
        unfold witAt at hvr2
        cases hwr2 : wits[r2.1]? with
        | none => rw [hwr2] at hvr2; simp at hvr2
        | some w2 =>
          rw [hwr2] at hvr2
          exact respAt_prove spec wits rand
            (challengeOf hash spec (tList spec wits rand)) hn hwr2 hvr2
      rw [hr2At]
      have hbl : blindingOf spec.meta_statements rand r2
          = blindingOf spec.meta_statements rand r :=
        blindingOf_eq_of_same_class spec.meta_statements rand (r :: rest) r2 r hdisj hcls
          (List.mem_cons_of_mem _ hr2) (List.mem_cons_self _ _)
      rw [hbl]
  rw [hcls]
  rfl

/-- A passing equality class forces all its linked response scalars to
coincide. -/
theorem classOk_resp_eq {Fr G : Type} [DecidableEq Fr] {proof : SpecProof Fr G}
    {cls : List (Nat × Nat)} (h : classOk proof cls = true) {a b : Nat × Nat}
    (ha : a ∈ cls) (hb : b ∈ cls) : respAt proof a = respAt proof b := by
  cases cls with
  | nil => exact absurd ha (List.not_mem_nil a)
  | cons r rest =>
    simp only [classOk] at h
    cases hr : respAt proof r with
    | none => rw [hr] at h; simp at h
    | some v =>
      rw [hr] at h
      simp only at h
      have key : ∀ x ∈ r :: rest, respAt proof x = some v := by
        intro x hx
        rcases List.mem_cons.mp hx with rfl | hx'
        · exact hr
        · exact decide_eq_true_eq.mp (List.all_eq_true.mp h x hx')
      rw [key a ha, key b hb]

/-- C4: if two refs of one equality class carry genuinely different witness
values while every statement is individually satisfied, `verify` applied to
the generated proof fails with `WitnessEqualityViolated` (each individual
statement proof verifies in isolation), provided the derived challenge is
nonzero. -/
theorem spec_verify_rejects_unequal_linked {Fr G : Type} [CommRing Fr] [IsDomain Fr]
    [AddCommMonoid G] [Module Fr G] [DecidableEq Fr] [DecidableEq G]
    (hash : List G → Fr) (rand : Nat → Nat → Fr) (spec : SpecProofSpec Fr G)
    (wits : List (List Fr))
    (hval : spec.validate = true)
    (hsat : satisfiesStatements spec wits = true)
    {cls : List (Nat × Nat)} (hcls : cls ∈ spec.meta_statements)
    {a b : Nat × Nat} (ha : a ∈ cls) (hb : b ∈ cls)
    {va vb : Fr} (hva : witAt wits a = some va) (hvb : witAt wits b = some vb)
    (hne : va ≠ vb)
    (hc : challengeOf hash spec (tList spec wits rand) ≠ 0) :
    (prove hash rand spec wits).bind (verify hash spec)
      = Except.error SpecError.witnessEqualityViolated := by
  obtain ⟨hn, hstmts⟩ := satisfies_at hsat
  have hdisj : disjointClasses spec.meta_statements = true := by
    have hv2 := hval
    unfold SpecProofSpec.validate at hv2
    rw [Bool.and_eq_true] at hv2
    exact hv2.2
  have hproof : prove hash rand spec wits
      = .ok ⟨(List.range spec.statements.length).map fun i =>
          ⟨tAt spec wits rand i,
            respsAt spec wits rand (challengeOf hash spec (tList spec wits rand)) i⟩⟩ := by
    unfold prove
    rw [if_pos hval]
  rw [hproof]
  show verify hash spec _ = Except.error SpecError.witnessEqualityViolated
  unfold verify
  rw [if_pos hval]
  rw [if_pos (by simp)]
  have hmapt : ((List.range spec.statements.length).map fun i =>
      (⟨tAt spec wits rand i,
        respsAt spec wits rand (challengeOf hash spec (tList spec wits rand)) i⟩
        : SpecStatementProof Fr G)).map SpecStatementProof.t
      = tList spec wits rand := by
    rw [List.map_map]
    rfl
  simp only [hmapt]
  rw [firstFailIdx_prove_none hash rand spec wits hsat]
  have hafalse : ¬ spec.meta_statements.all (classOk
      (⟨(List.range spec.statements.length).map fun i =>
        ⟨tAt spec wits rand i,
          respsAt spec wits rand (challengeOf hash spec (tList spec wits rand)) i⟩⟩
        : SpecProof Fr G)) = true := by
    intro hall
    have hclsok := List.all_eq_true.mp hall cls hcls
    have hre := classOk_resp_eq hclsok ha hb
    have hA : respAt (⟨(List.range spec.statements.length).map fun i =>
        ⟨tAt spec wits rand i,
          respsAt spec wits rand (challengeOf hash spec (tList spec wits rand)) i⟩⟩
        : SpecProof Fr G) a = some (blindingOf spec.meta_statements rand a
        + challengeOf hash spec (tList spec wits rand) * va) := by
      have hvr := hva
      unfold witAt at hvr
      cases hwr : wits[a.1]? with
      | none => rw [hwr] at hvr; simp at hvr
      | some w =>
        rw [hwr] at hvr
        exact respAt_prove spec wits rand
          (challengeOf hash spec (tList spec wits rand)) hn hwr hvr
    have hB : respAt (⟨(List.range spec.statements.length).map fun i =>
        ⟨tAt spec wits rand i,
          respsAt spec wits rand (challengeOf hash spec (tList spec wits rand)) i⟩⟩
        : SpecProof Fr G) b = some (blindingOf spec.meta_statements rand b
        + challengeOf hash spec (tList spec wits rand) * vb) := by
      have hvr := hvb
      unfold witAt at hvr
      cases hwr : wits[b.1]? with
      | none => rw [hwr] at hvr; simp at hvr
      | some w =>
        rw [hwr] at hvr
        exact respAt_prove spec wits rand
          (challengeOf hash spec (tList spec wits rand)) hn hwr hvr
    rw [hA, hB, blindingOf_eq_of_same_class spec.meta_statements rand cls a b
      hdisj hcls ha hb] at hre
    have hsum := Option.some.inj hre
    have hcc : challengeOf hash spec (tList spec wits rand) * va
        = challengeOf hash spec (tList spec wits rand) * vb := by
      exact add_left_cancel hsum
    exact hne (mul_left_cancel₀ hc hcc)
  rw [if_neg hafalse]

end SpecModel

/-- C3 witness: the concrete valid scenario — five signed messages
`[101, …, 105]`, bound-check value `102` equality-linked to signed index 1 —
proves and verifies successfully. -/
theorem spec_prove_then_verify_ok_witness :
    (SpecModel.prove hashC randC specC3 witsC3).bind (SpecModel.verify hashC specC3)
      = Except.ok () :=
  SpecModel.spec_prove_then_verify_ok hashC randC specC3 witsC3 (by decide) (by decide)
    (by decide)

/-- C4 witness: the concrete mismatch scenario — bound-check value `110`
linked to signed index 0 whose actual message is `101` — verifies to
`WitnessEqualityViolated` despite both statements being individually
satisfied. -/
theorem spec_verify_rejects_unequal_linked_witness :
    (SpecModel.prove hashC randC specC4 witsC4).bind (SpecModel.verify hashC specC4)
      = Except.error SpecModel.SpecError.witnessEqualityViolated :=
  SpecModel.spec_verify_rejects_unequal_linked hashC randC specC4 witsC4 (by decide)
    (by decide) (List.mem_cons_self _ _) (List.mem_cons_self _ _)
    (List.mem_cons_of_mem _ (List.mem_cons_self _ _))
    (show SpecModel.witAt witsC4 (0, 0) = some (101 : ZMod 11) by decide)
    (show SpecModel.witAt witsC4 (1, 0) = some (110 : ZMod 11) by decide)
    (show (101 : ZMod 11) ≠ (110 : ZMod 11) by decide)
    (by decide)

end CryptoVerif
